import Mathlib

/-!
# go-tunnel: a shallow embedding of the TUN/UDP bonding tunnel

The development models the Go sources

* `tun.go`, `tun_linux.go` (package `opentun`): `InterfaceByName`, `tunLinux.Write`,
  `OpenTun`, `configureIface`;
* `multique/tun_multi_linux.go` (package `multique`): the multi-queue `OpenTun`;
* `example/main.go`: `UdpWrite`, `TunRecv`, `TunSend`, `UdpChannel.UdpRecv`,
  `UdpChannel.UdpSend`, `UdpChannel.Display`, `NewUdpChannel`, `IsUsedPort`,
  `UnusedPort`, `main`.

Operating-system calls (device and socket I/O, netlink configuration, the random
generator) are inputs of the model: every function receives the results the
operating system gave and records the calls it made.  Go `int` and `int64` values are
integers; the `int64` statistics counters wrap modulo `2^64`.  The three goroutines of a
channel share its counters without synchronisation; where the counters matter they are
interleaved at the level of single loads and stores (`ChanSys`).
-/

set_option autoImplicit false

namespace GoTunnel

/-! ## Common data -/

/-- One octet of a packet buffer. -/
abbrev Byte := Fin 256

/-- A Go byte slice `[]byte`. -/
abbrev Packet := List Byte

/-- A Go `error` value: `none` is `nil`, `some msg` an error with that message. -/
abbrev GoError := Option String

/-- Result `(n, err)` of a `Write`-like system call. -/
structure WriteResult where
  n : Int
  err : GoError
deriving DecidableEq, Repr

/-- Sixty-four bit two's complement wrap-around of Go's `int64` arithmetic. -/
def wrapInt64 (x : Int) : Int := (x + 2 ^ 63) % 2 ^ 64 - 2 ^ 63

/-! ## `tun.go` -/

namespace opentun

/-- The constant `encapOverhead`: 20 bytes IP header + 8 bytes UDP header. -/
def encapOverhead : Int := 28

/-- The part of `net.Interface` the code reads. -/
structure NetInterface where
  MTU : Int
deriving DecidableEq, Repr

/-- Outcome of `netlink.RouteAdd`. -/
inductive RouteAddResult where
  | ok
  | eexist
  | other (msg : String)
deriving DecidableEq, Repr

/-- The operating system as seen by `OpenTun`: the answer to every call it makes. -/
structure OS where
  /-- Answer of `net.InterfaceByName`. -/
  ifaceLookup : String → Except String NetInterface
  /-- Answer of the `k`-th `unix.Open` of `/dev/net/tun`. -/
  openDev : Nat → GoError
  /-- Answer of the `k`-th `TUNSETIFF` ioctl: an error, or the interface name the
  kernel wrote back into the request. -/
  tunSetIff : Nat → Except String String
  /-- Answer of `netlink.LinkByName`. -/
  linkByName : String → GoError
  /-- Answer of `netlink.AddrAdd`. -/
  addrAdd : String → String → GoError
  /-- Answer of `netlink.LinkSetMTU`. -/
  linkSetMTU : String → Int → GoError
  /-- Answer of `netlink.LinkSetUp`. -/
  linkSetUp : String → GoError
  /-- Answer of `netlink.RouteAdd`. -/
  routeAdd : String → String → RouteAddResult

/-- Calls with an effect on the host that the model records. -/
inductive SysCall where
  | openDev (k : Nat)
  | tunSetIff (k : Nat)
  | addrAdd (ifname ip : String)
  | linkSetMTU (ifname : String) (mtu : Int)
  | linkSetUp (ifname : String)
  | routeAdd (ifname ipnet : String)
deriving DecidableEq, Repr

/-- Go `InterfaceByName` of `tun.go`. -/
def InterfaceByName (os : OS) (ifname : String) : Except String NetInterface :=
  match os.ifaceLookup ifname with
  | .error e => .error ("error looking up interface " ++ ifname ++ ": " ++ e)
  | .ok iface =>
    if iface.MTU = 0 then
      .error ("failed to determine MTU for " ++ ifname ++ " interface")
    else .ok iface

/-- Go `configureIface` (identical in `tun_linux.go` and `tun_multi_linux.go`):
returns the calls made and the error. -/
def configureIface (os : OS) (ifname ip ipnet : String) (mtu : Int) :
    List SysCall × GoError :=
  match os.linkByName ifname with
  | some _ => ([], some ("failed to lookup interface " ++ ifname))
  | none =>
    match os.addrAdd ifname ip with
    | some e =>
      ([.addrAdd ifname ip],
        some ("failed to add IP address " ++ ipnet ++ " to " ++ ifname ++ ": " ++ e))
    | none =>
      match os.linkSetMTU ifname mtu with
      | some e =>
        ([.addrAdd ifname ip, .linkSetMTU ifname mtu],
          some ("failed to set MTU for " ++ ifname ++ ": " ++ e))
      | none =>
        match os.linkSetUp ifname with
        | some e =>
          ([.addrAdd ifname ip, .linkSetMTU ifname mtu, .linkSetUp ifname],
            some ("failed to set interface " ++ ifname ++ " to UP state: " ++ e))
        | none =>
          match os.routeAdd ifname ipnet with
          | .other e =>
            ([.addrAdd ifname ip, .linkSetMTU ifname mtu, .linkSetUp ifname,
                .routeAdd ifname ipnet],
              some ("failed to add route (" ++ ipnet ++ " -> " ++ ifname ++ "): " ++ e))
          | _ =>
            ([.addrAdd ifname ip, .linkSetMTU ifname mtu, .linkSetUp ifname,
                .routeAdd ifname ipnet], none)

/-! ## `tun_linux.go` -/

/-- The device file `tunf`: the answer of the operating system to the `k`-th write,
and the writes performed so far. -/
structure File where
  respond : Nat → Packet → WriteResult
  writes : List Packet

/-- Go `(*os.File).Write`: one write system call. -/
def File.Write (f : File) (p : Packet) : WriteResult × File :=
  (f.respond f.writes.length p, { f with writes := f.writes ++ [p] })

/-- Go `tunLinux`. -/
structure tunLinux where
  tunf : File
  mtu : Int
  ifname : String

/-- Go `(*tunLinux).Write`: the returned error and the device after the call. -/
def tunLinux.Write (tun : tunLinux) (p : Packet) : GoError × tunLinux :=
  let r := tun.tunf.Write p
  match r.1.err with
  | some e => (some ("tun write fail, " ++ e), { tun with tunf := r.2 })
  | none =>
    if r.1.n ≠ (p.length : Int) then
      (some ("tun send " ++ toString r.1.n ++ " out of " ++ toString p.length ++ " bytes"),
        { tun with tunf := r.2 })
    else (none, { tun with tunf := r.2 })

/-- What `OpenTun` returns on success: the traced fields of the `tunLinux` it built
(`mtu` is never assigned by the source and keeps its zero value). -/
structure TunHandle where
  fd : Nat
  mtu : Int
  ifname : String
deriving DecidableEq, Repr

/-- Go `OpenTun` of `tun_linux.go`: the calls made and the result. -/
def OpenTun (os : OS) (ifname ip ipnet : String) : List SysCall × Except String TunHandle :=
  match InterfaceByName os ifname with
  | .error e => ([], .error e)
  | .ok iface =>
    if iface.MTU < encapOverhead then
      ([], .error ("interface " ++ ifname ++ " mtu is too small"))
    else
      match os.openDev 0 with
      | some e => ([.openDev 0], .error e)
      | none =>
        match os.tunSetIff 0 with
        | .error e => ([.openDev 0, .tunSetIff 0], .error e)
        | .ok name =>
          let r := configureIface os name ip ipnet (iface.MTU - encapOverhead)
          match r.2 with
          | some e => ([.openDev 0, .tunSetIff 0] ++ r.1, .error e)
          | none =>
            ([.openDev 0, .tunSetIff 0] ++ r.1, .ok { fd := 0, mtu := 0, ifname := name })

end opentun

/-! ## `multique/tun_multi_linux.go` -/

namespace multique

open opentun (OS SysCall NetInterface)

/-- The constant `encapOverhead` of package `multique`. -/
def encapOverhead : Int := 28

/-- The constant `tunifaceName` of package `multique`. -/
def tunifaceName : String := "tunmq%d"

/-- Go `interfaceByName` of `tun_multi_linux.go`. -/
def interfaceByName (os : OS) (ifname : String) : Except String NetInterface :=
  match os.ifaceLookup ifname with
  | .error e => .error ("error looking up interface " ++ ifname ++ ": " ++ e)
  | .ok iface =>
    if iface.MTU = 0 then
      .error ("failed to determine MTU for " ++ ifname ++ " interface")
    else .ok iface

/-- Go `configureIface` of `tun_multi_linux.go`, the same text as in `tun_linux.go`. -/
def configureIface (os : OS) (ifname ip ipnet : String) (mtu : Int) :
    List SysCall × GoError :=
  opentun.configureIface os ifname ip ipnet mtu

/-- Go `Tunnel`. -/
structure Tunnel where
  FD : List Nat
  MTU : Int
  Ifname : String
deriving DecidableEq, Repr

/-- The `for i := 0; i < cnt; i++` loop of the multi-queue `OpenTun`, from index `i`
for `todo` more rounds: opens the device and attaches the queue; carries the name in
the ioctl request and the handles opened so far. -/
def openQueues (os : OS) : (todo i : Nat) → (name : String) → (fds : List Nat) →
    List SysCall × Except String (String × List Nat)
  | 0, _, name, fds => ([], .ok (name, fds))
  | todo + 1, i, _, fds =>
    match os.openDev i with
    | some e => ([.openDev i], .error e)
    | none =>
      match os.tunSetIff i with
      | .error e => ([.openDev i, .tunSetIff i], .error e)
      | .ok name' =>
        let r := openQueues os todo (i + 1) name' (fds ++ [i])
        ([.openDev i, .tunSetIff i] ++ r.1, r.2)

/-- Go `OpenTun` of `tun_multi_linux.go`: the calls made and the result. -/
def OpenTun (os : OS) (ifname ip ipnet : String) (cnt : Int) :
    List SysCall × Except String Tunnel :=
  match interfaceByName os ifname with
  | .error e => ([], .error e)
  | .ok iface =>
    if iface.MTU < encapOverhead then
      ([], .error ("interface " ++ ifname ++ " mtu is too small"))
    else
      let q := openQueues os cnt.toNat 0 tunifaceName []
      match q.2 with
      | .error e => (q.1, .error e)
      | .ok (name, fds) =>
        let mtu := iface.MTU - encapOverhead
        let r := configureIface os name ip ipnet mtu
        match r.2 with
        | some e => (q.1 ++ r.1, .error e)
        | none => (q.1 ++ r.1, .ok { FD := fds, MTU := mtu, Ifname := name })

end multique

/-! ## `example/main.go` -/

namespace Main

open opentun (tunLinux)

/-- Go `net.UDPAddr`, as far as the program distinguishes addresses. -/
structure UDPAddr where
  host : String
  port : Int
deriving DecidableEq, Repr

/-- Go `(*net.UDPAddr).String`, which prints `<nil>` for the nil pointer. -/
def addrString : Option UDPAddr → String
  | none => "<nil>"
  | some a => a.host ++ ":" ++ toString a.port

/-- Go `UdpChannel`; `conn` identifies the bound socket. -/
structure UdpChannel where
  port : Int
  conn : Nat
  remote : Option UDPAddr
  statPkg : Int
  statSize : Int
deriving DecidableEq, Repr

/-- Go `make([]byte, n)`: a zeroed buffer. -/
def makeBuf (n : Nat) : Packet := List.replicate n 0

/-- A read system call storing `data` into `buff`: the byte count returned and the
buffer afterwards.  At most `len(buff)` bytes are stored. -/
def readInto (buff data : Packet) : Nat × Packet :=
  (min data.length buff.length, data.take buff.length ++ buff.drop data.length)

/-- Go `UdpWrite`; `w` is what `conn.WriteToUDP(body, dstAddr)` returned. -/
def UdpWrite (body : Packet) (w : WriteResult) : GoError :=
  match w.err with
  | some e => some ("udp write fail, " ++ e)
  | none =>
    if w.n ≠ (body.length : Int) then
      some ("udp send " ++ toString w.n ++ " out of " ++ toString body.length ++ " bytes")
    else none

/-- Outcome of `tun.Read`: the packet the device delivers, or an error. -/
inductive ReadResult where
  | ok (data : Packet)
  | fail (msg : String)
deriving DecidableEq, Repr

/-- One iteration of the loop of Go `TunRecv`: the queue `tunRead` afterwards and the
lines logged. -/
def TunRecvIter (tunRead : List Packet) (r : ReadResult) : List Packet × List String :=
  match r with
  | .fail e => (tunRead, ["tun read fail, " ++ e])
  | .ok data =>
    let rd := readInto (makeBuf 1500) data
    (tunRead ++ [rd.2.take rd.1], [])

/-- One iteration of the loop of Go `TunSend`: the device, the queue `tunWrite`
afterwards and the lines logged.  On the empty queue the receive blocks. -/
def TunSendIter (tun : tunLinux) (tunWrite : List Packet) :
    tunLinux × List Packet × List String :=
  match tunWrite with
  | [] => (tun, [], [])
  | buff :: rest =>
    let r := tun.Write buff
    match r.1 with
    | some e => (r.2, rest, ["tun write fail, " ++ e])
    | none => (r.2, rest, [])

/-- Outcome of `c.conn.ReadFromUDP`: a datagram and its sender, end of stream, or
another error. -/
inductive ReadFromUDPResult where
  | ok (data : Packet) (addr : UDPAddr)
  | eof
  | fail (msg : String)
deriving DecidableEq, Repr

/-- Effect of one iteration of the loop of `UdpRecv`. -/
structure RecvOut where
  c : UdpChannel
  /-- The slice sent on `tunWrite`, if any. -/
  pushed : Option Packet
  log : List String
  /-- Whether the function returned. -/
  exit : Bool
deriving DecidableEq, Repr

/-- One iteration of the loop of Go `(*UdpChannel).UdpRecv`. -/
def UdpChannel.UdpRecvIter (c : UdpChannel) (r : ReadFromUDPResult) : RecvOut :=
  match r with
  | .eof => { c := c, pushed := none, log := [], exit := true }
  | .fail e => { c := c, pushed := none, log := [e], exit := true }
  | .ok data addr =>
    let rd := readInto (makeBuf 1500) data
    match c.remote with
    | none =>
      { c := { c with remote := some addr }, pushed := none,
        log := ["connect from: " ++ addrString (some addr)], exit := false }
    | some _ =>
      { c := { c with statPkg := wrapInt64 (c.statPkg + 1),
                      statSize := wrapInt64 (c.statSize + (rd.1 : Int)) },
        pushed := some (rd.2.take rd.1), log := [], exit := false }

/-- State of a run of `UdpRecv`: the channel, the queue `tunWrite` and the log. -/
structure RecvRun where
  c : UdpChannel
  tunWrite : List Packet
  log : List String
deriving DecidableEq, Repr

/-- Go `(*UdpChannel).UdpRecv` on the successive answers of the socket: loops until
an answer is an error, or the answers given are used up. -/
def UdpChannel.UdpRecv (c : UdpChannel) (tunWrite : List Packet) (log : List String) :
    List ReadFromUDPResult → RecvRun
  | [] => { c := c, tunWrite := tunWrite, log := log }
  | r :: rs =>
    if (c.UdpRecvIter r).exit then
      { c := (c.UdpRecvIter r).c, tunWrite := tunWrite, log := log ++ (c.UdpRecvIter r).log }
    else
      (c.UdpRecvIter r).c.UdpRecv (tunWrite ++ (c.UdpRecvIter r).pushed.toList)
        (log ++ (c.UdpRecvIter r).log) rs

/-- Effect of one iteration of the loop of `UdpSend`. -/
structure SendOut where
  c : UdpChannel
  /-- The call `c.conn.WriteToUDP(buff, c.remote)`, if made. -/
  sent : Option (Packet × UDPAddr)
  log : List String
deriving DecidableEq, Repr

/-- One iteration of the loop of Go `(*UdpChannel).UdpSend` after `buff` was received
from `tunRead`; `w` is what `WriteToUDP` returns if it is called. -/
def UdpChannel.UdpSendIter (c : UdpChannel) (buff : Packet) (w : WriteResult) : SendOut :=
  match c.remote with
  | some remote =>
    match w.err with
    | some e => { c := c, sent := some (buff, remote), log := [e] }
    | none =>
      { c := { c with statPkg := wrapInt64 (c.statPkg + 1),
                      statSize := wrapInt64 (c.statSize + (buff.length : Int)) },
        sent := some (buff, remote), log := [] }
  | none => { c := c, sent := none, log := [] }

/-- The line printed by `Display`: `"%d %d %d/mb"`. -/
def formatReport (port pkg mb : Int) : String :=
  toString port ++ " " ++ toString pkg ++ " " ++ toString mb ++ "/mb"

/-! ### The channel pool: all channels share the queue `tunRead` -/

/-- The channels of `channelList` with the shared queue `tunRead` they all receive
from, and the `WriteToUDP` calls made so far (index of the calling channel, body,
destination). -/
structure Pool where
  channelList : List UdpChannel
  tunRead : List Packet
  sent : List (Nat × Packet × UDPAddr)
  log : List String
deriving DecidableEq, Repr

/-- Channel `i` runs one iteration of `UdpSend`: it receives the head of `tunRead`.
On the empty queue the receive blocks and nothing changes. -/
def Pool.UdpSend (p : Pool) (i : Nat) (w : WriteResult) : Pool :=
  match p.channelList[i]?, p.tunRead with
  | some c, buff :: rest =>
    { channelList := p.channelList.set i (c.UdpSendIter buff w).c,
      tunRead := rest,
      sent := p.sent ++ ((c.UdpSendIter buff w).sent.toList.map fun x => (i, x.1, x.2)),
      log := p.log ++ (c.UdpSendIter buff w).log }
  | _, _ => p

/-! ### One channel with its three goroutines interleaved

`NewUdpChannel` starts `UdpRecv`, `UdpSend` and `Display` as three goroutines on the same
`UdpChannel`.  They read and write `c.statPkg` and `c.statSize` without synchronisation:
`c.statPkg++` and `c.statSize += n` are a load followed by a store, and another
goroutine can run between the two.  The model below interleaves the goroutines at the
level of these memory accesses. -/

/-- An iteration of one of the three loops of a channel: of `UdpRecv` with the answer
of the socket, of `UdpSend` with the packet received from `tunRead` and the answer of the
socket, or of `Display`. -/
inductive ChanEvent where
  | recv (r : ReadFromUDPResult)
  | send (buff : Packet) (w : WriteResult)
  | report
deriving DecidableEq, Repr

/-- Where `UdpRecv` or `UdpSend` stands in `c.statPkg++; c.statSize += n`: not in it,
before the load of `statPkg`, between that load (of `v`) and the store, before the load
of `statSize`, between that load and the store. -/
inductive UpdatePc where
  | idle
  | loadPkg (n : Int)
  | storePkg (n : Int) (v : Int)
  | loadSize (n : Int)
  | storeSize (n : Int) (v : Int)
deriving DecidableEq, Repr

/-- Where `Display` stands after the sleep: not started, `c.port` and `c.statPkg` loaded
for `Printf`, line printed and `c.statPkg = 0` pending, `c.statSize = 0` pending. -/
inductive DisplayPc where
  | idle
  | loadSize (port pkg : Int)
  | zeroPkg
  | zeroSize
deriving DecidableEq, Repr

/-- One scheduling step of a channel: a goroutine starts an iteration of its loop, up to
its first access to a counter, or performs its next access to a counter. -/
inductive MicroEvent where
  | recvBegin (r : ReadFromUDPResult)
  | recvTick
  | sendBegin (buff : Packet) (w : WriteResult)
  | sendTick
  | displayBegin
  | displayTick
deriving DecidableEq, Repr

/-- A channel, where each of its goroutines stands, and what they have done: whether
`UdpRecv` returned, the slices it sent on `tunWrite`, the `WriteToUDP` calls of `UdpSend`
with their results, the values printed by `Display`, and the log. -/
structure ChanSys where
  c : UdpChannel
  recvPc : UpdatePc
  sendPc : UpdatePc
  displayPc : DisplayPc
  recvExited : Bool
  tunWrite : List Packet
  sent : List (Packet × UDPAddr × WriteResult)
  reports : List (Int × Int × Int)
  log : List String
deriving DecidableEq, Repr

/-- A freshly started channel. -/
def ChanSys.start (c : UdpChannel) : ChanSys :=
  { c := c, recvPc := .idle, sendPc := .idle, displayPc := .idle, recvExited := false,
    tunWrite := [], sent := [], reports := [], log := [] }

/-- The next access to a counter in `c.statPkg++; c.statSize += n`: the channel and the
position afterwards. -/
def updateTick (c : UdpChannel) : UpdatePc → UdpChannel × UpdatePc
  | .idle => (c, .idle)
  | .loadPkg n => (c, .storePkg n c.statPkg)
  | .storePkg n v => ({ c with statPkg := wrapInt64 (v + 1) }, .loadSize n)
  | .loadSize n => (c, .storeSize n c.statSize)
  | .storeSize n v => ({ c with statSize := wrapInt64 (v + n) }, .idle)

/-- One scheduling step of a channel.  A goroutine in the middle of an iteration does
not start another one, and `UdpRecv` starts none after it returned. -/
def ChanSys.step (s : ChanSys) : MicroEvent → ChanSys
  | .recvBegin r =>
    if s.recvExited then s
    else
      match s.recvPc with
      | .idle =>
        match r with
        | .eof => { s with recvExited := true }
        | .fail e => { s with recvExited := true, log := s.log ++ [e] }
        | .ok data addr =>
          match s.c.remote with
          | none =>
            { s with c := { s.c with remote := some addr },
                     log := s.log ++ ["connect from: " ++ addrString (some addr)] }
          | some _ =>
            { s with tunWrite := s.tunWrite ++
                       [(readInto (makeBuf 1500) data).2.take (readInto (makeBuf 1500) data).1],
                     recvPc := .loadPkg ((readInto (makeBuf 1500) data).1 : Int) }
      | _ => s
  | .recvTick =>
    { s with c := (updateTick s.c s.recvPc).1, recvPc := (updateTick s.c s.recvPc).2 }
  | .sendBegin buff w =>
    match s.sendPc with
    | .idle =>
      match s.c.remote with
      | some remote =>
        match w.err with
        | some e => { s with sent := s.sent ++ [(buff, remote, w)], log := s.log ++ [e] }
        | none =>
          { s with sent := s.sent ++ [(buff, remote, w)],
                   sendPc := .loadPkg (buff.length : Int) }
      | none => s
    | _ => s
  | .sendTick =>
    { s with c := (updateTick s.c s.sendPc).1, sendPc := (updateTick s.c s.sendPc).2 }
  | .displayBegin =>
    match s.displayPc with
    | .idle => { s with displayPc := .loadSize s.c.port s.c.statPkg }
    | _ => s
  | .displayTick =>
    match s.displayPc with
    | .idle => s
    | .loadSize port pkg =>
      { s with reports := s.reports ++ [(port, pkg, Int.tdiv s.c.statSize (1024 * 1024))],
               log := s.log ++ [formatReport port pkg (Int.tdiv s.c.statSize (1024 * 1024))],
               displayPc := .zeroPkg }
    | .zeroPkg => { s with c := { s.c with statPkg := 0 }, displayPc := .zeroSize }
    | .zeroSize => { s with c := { s.c with statSize := 0 }, displayPc := .idle }

/-- A schedule: a sequence of scheduling steps of a channel. -/
def ChanSys.run (s : ChanSys) (sched : List MicroEvent) : ChanSys :=
  sched.foldl ChanSys.step s

/-- The scheduling steps of one whole iteration, run without another goroutine of the
channel in between. -/
def ChanEvent.micro : ChanEvent → List MicroEvent
  | .recv r => [.recvBegin r, .recvTick, .recvTick, .recvTick, .recvTick]
  | .send buff w => [.sendBegin buff w, .sendTick, .sendTick, .sendTick, .sendTick]
  | .report => [.displayBegin, .displayTick, .displayTick, .displayTick]

/-- The schedule in which the given iterations run one after the other, none
overlapping another. -/
def sequentialSchedule (evs : List ChanEvent) : List MicroEvent :=
  evs.flatMap ChanEvent.micro

/-- No goroutine of the channel is in the middle of an iteration. -/
def ChanSys.quiescent (s : ChanSys) : Prop :=
  s.recvPc = .idle ∧ s.sendPc = .idle ∧ s.displayPc = .idle

/-- The `WriteToUDP` calls that returned no error. -/
def okSends (sent : List (Packet × UDPAddr × WriteResult)) :
    List (Packet × UDPAddr × WriteResult) :=
  sent.filter fun x => x.2.2.err = none

/-- The number of packets a channel forwarded: slices pushed on `tunWrite` and
`WriteToUDP` calls that returned no error. -/
def ChanSys.forwardedCount (s : ChanSys) : Nat :=
  s.tunWrite.length + (okSends s.sent).length

/-- The number of bytes a channel forwarded: lengths of the slices pushed on `tunWrite`
and of the packets whose `WriteToUDP` call returned no error. -/
def ChanSys.forwardedBytes (s : ChanSys) : Nat :=
  (s.tunWrite.map List.length).sum + ((okSends s.sent).map fun x => x.1.length).sum

/-- The counters agree, modulo `2^64`, with what the channel forwarded. -/
def countersMatch (s : ChanSys) : Prop :=
  s.c.statPkg = wrapInt64 (s.forwardedCount : Int) ∧
  s.c.statSize = wrapInt64 (s.forwardedBytes : Int)

/-- What `(*net.UDPConn).WriteToUDP(body, addr)` can return: a datagram is sent whole,
`(len(body), nil)`, or not at all, `(0, err)`. -/
def WriteToUDPAnswer (body : Packet) (w : WriteResult) : Prop :=
  (w.err = none ∧ w.n = (body.length : Int)) ∨ (w.err ≠ none ∧ w.n = 0)

/-! ### Start-up: `NewUdpChannel`, `UnusedPort`, `main` -/

/-- The command-line flags. -/
structure Flags where
  help : Bool
  IPnet : String
  Port : Int
  Number : Int
  Server : String
deriving DecidableEq, Repr

/-- The host as seen by `main`. -/
structure Host where
  /-- The `k`-th value returned by `rand.Int()`. -/
  rnd : Nat → Nat
  /-- Answer of `net.Listen("tcp", "0.0.0.0:port")` in the `k`-th call of
  `IsUsedPort`. -/
  tcpListen : Nat → Int → GoError
  /-- Answer of `OpenUdp("0.0.0.0:port")`. -/
  udpListen : Int → GoError
  /-- The local port of the socket `OpenUdp("0.0.0.0:port")` returns when it
  succeeds. -/
  udpBound : Int → Int
  /-- Answer of `net.ResolveUDPAddr("udp", remote)`. -/
  resolve : String → Except String UDPAddr
  /-- Answer of `net.ParseCIDR`: the address and the network. -/
  parseCIDR : String → Except String (String × String)
  /-- Answers to the calls of `opentun.OpenTun`. -/
  os : opentun.OS

/-- A goroutine started with `go`. -/
inductive Task where
  | UdpRecv (conn : Nat)
  | UdpSend (conn : Nat)
  | Display (conn : Nat)
  | TunRecv
  | TunSend
deriving DecidableEq, Repr

/-- A socket returned by `OpenUdp`: the handle kept in `UdpChannel.conn` and the local
port it is bound to. -/
structure Socket where
  conn : Nat
  localPort : Int
deriving DecidableEq, Repr

/-- The state `main` builds up. -/
structure MainState where
  channelList : List UdpChannel
  /-- The sockets `OpenUdp` returned, in order. -/
  sockets : List Socket
  /-- The goroutines started, in order. -/
  started : List Task
  /-- The announce datagrams sent by `NewUdpChannel`: socket, body, destination. -/
  probes : List (Nat × Packet × UDPAddr)
  /-- How many times `rand.Int()` and `IsUsedPort` were called. -/
  rndCalls : Nat
  /-- The calls `OpenTun` made. -/
  sys : List opentun.SysCall
  log : List String
deriving DecidableEq, Repr

/-- The state when `main` starts. -/
def MainState.init : MainState :=
  { channelList := [], sockets := [], started := [], probes := [], rndCalls := 0, sys := [],
    log := [] }

/-- Go `NewUdpChannel`. -/
def NewUdpChannel (h : Host) (st : MainState) (port : Int) (remote : String) :
    GoError × MainState :=
  match h.udpListen port with
  | some e => (some e, { st with log := st.log ++ [e] })
  | none =>
    let conn := st.channelList.length
    let sockets := st.sockets ++ [{ conn := conn, localPort := h.udpBound port }]
    let resolved : Except String (Option UDPAddr) :=
      if remote ≠ "" then (h.resolve remote).map some else .ok none
    match resolved with
    | .error e => (some e, { st with sockets := sockets, log := st.log ++ [e] })
    | .ok remoteAddr =>
      let channel : UdpChannel :=
        { port := port, conn := conn, remote := remoteAddr, statPkg := 0, statSize := 0 }
      let probe : List (Nat × Packet × UDPAddr) :=
        if remote ≠ "" then remoteAddr.toList.map fun a => (conn, makeBuf 10, a) else []
      (none,
        { st with
            channelList := st.channelList ++ [channel],
            sockets := sockets,
            started := st.started ++ [.UdpRecv conn, .UdpSend conn, .Display conn],
            probes := st.probes ++ probe,
            log := st.log ++ ["udp channel init success: " ++ toString port ++ " -> "
                                ++ addrString remoteAddr] })

/-- Go `IsUsedPort`: `nil` when the TCP listen on the port succeeded. -/
def IsUsedPort (h : Host) (k : Nat) (port : Int) : GoError :=
  h.tcpListen k port

/-- Go `UnusedPort`, after `k` earlier draws: the port returned and the number of draws
made, or `none` when `fuel` candidates were all refused. -/
def UnusedPort (h : Host) : (fuel : Nat) → (k : Nat) → Option (Int × Nat)
  | 0, _ => none
  | fuel + 1, k =>
    let begin : Int := 10000
    let finish : Int := 50000
    let port : Int := ((h.rnd k : Int) % (finish - begin)) + begin
    if IsUsedPort h k port = none then some (port, k + 1)
    else UnusedPort h fuel (k + 1)

/-- How `main` ends. -/
inductive Outcome where
  /-- `-help`: usage printed, `main` returns. -/
  | usage
  /-- `UnusedPort` did not return within the fuel. -/
  | portSearch
  /-- `NewUdpChannel` failed, `main` returns. -/
  | channelFailed (e : String)
  /-- `net.ParseCIDR` failed, `main` returns. -/
  | cidrFailed (e : String)
  /-- `opentun.OpenTun` failed, `main` returns. -/
  | tunFailed (e : String)
  /-- All tasks started, `main` sleeps for ever. -/
  | running
deriving DecidableEq, Repr

/-- The body of the loop `for i := 0; i < Number; i++` of `main` at index `i`: the
state afterwards, and how `main` ends when the body makes it return. -/
def loopBody (h : Host) (f : Flags) (fuel : Nat) (i : Int) (st : MainState) :
    MainState × Option Outcome :=
  if f.Server ≠ "" then
    match UnusedPort h fuel st.rndCalls with
    | none => (st, some .portSearch)
    | some pk =>
      let r := NewUdpChannel h { st with rndCalls := pk.2 } pk.1
        (f.Server ++ ":" ++ toString (wrapInt64 (f.Port + i)))
      match r.1 with
      | some e => ({ r.2 with log := r.2.log ++ [e] }, some (.channelFailed e))
      | none => (r.2, none)
  else
    let r := NewUdpChannel h st (wrapInt64 (f.Port + i)) ""
    match r.1 with
    | some e => ({ r.2 with log := r.2.log ++ [e] }, some (.channelFailed e))
    | none => (r.2, none)

/-- The loop `for i := 0; i < Number; i++` of `main`, from index `i` for `todo` more
rounds. -/
def channelLoop (h : Host) (f : Flags) (fuel : Nat) :
    (todo : Nat) → (i : Int) → MainState → MainState × Option Outcome
  | 0, _, st => (st, none)
  | todo + 1, i, st =>
    match (loopBody h f fuel i st).2 with
    | some o => ((loopBody h f fuel i st).1, some o)
    | none => channelLoop h f fuel todo (i + 1) (loopBody h f fuel i st).1

/-- Go `main`: the state built and how it ends. -/
def main (h : Host) (f : Flags) (fuel : Nat) : MainState × Outcome :=
  if f.help then (MainState.init, .usage)
  else
    let r := channelLoop h f fuel f.Number.toNat 0 MainState.init
    match r.2 with
    | some o => (r.1, o)
    | none =>
      match h.parseCIDR f.IPnet with
      | .error e => ({ r.1 with log := r.1.log ++ [e] }, .cidrFailed e)
      | .ok (ip, ipnet) =>
        let t := opentun.OpenTun h.os "eth0" ip ipnet
        match t.2 with
        | .error e => ({ r.1 with sys := t.1, log := r.1.log ++ [e] }, .tunFailed e)
        | .ok _ =>
          ({ r.1 with sys := t.1,
                      started := r.1.started ++ [.TunRecv, .TunSend],
                      log := r.1.log ++ ["tun init success"] }, .running)

/-! ### What start-up establishes -/

/-- The three goroutines `NewUdpChannel` starts for a channel. -/
def channelTasks (c : UdpChannel) : List Task :=
  [.UdpRecv c.conn, .UdpSend c.conn, .Display c.conn]

/-- What holds of the channel created in round `idx` of the loop of `main`: its
socket is bound to `c.port`, its counters are zero; in passive role (no server) the port
is the base port plus `idx` and the remote is unset; in active role the port was drawn by
`UnusedPort` and passed the TCP check, and the remote is the resolved address of the
server with the base port plus `idx`. -/
def channelOf (h : Host) (f : Flags) (idx : Nat) (c : UdpChannel) : Prop :=
  c.conn = idx ∧ c.statPkg = 0 ∧ c.statSize = 0 ∧ h.udpListen c.port = none ∧
  (f.Server = "" → c.port = wrapInt64 (f.Port + idx) ∧ c.remote = none) ∧
  (f.Server ≠ "" →
    (∃ k, c.port = (h.rnd k : Int) % 40000 + 10000 ∧ h.tcpListen k c.port = none) ∧
    ∃ a, h.resolve (f.Server ++ ":" ++ toString (wrapInt64 (f.Port + idx))) = .ok a ∧
      c.remote = some a)

/-- The socket `NewUdpChannel` opened for a channel: its handle, bound to the local port
the host gave for the port asked. -/
def socketOf (h : Host) (c : UdpChannel) : Socket :=
  { conn := c.conn, localPort := h.udpBound c.port }

/-- What holds of the state of `main` during and after the loop: every channel is the
one its round creates, the goroutines started are those of the channels, and the socket
of every channel has been opened. -/
def loopInv (h : Host) (f : Flags) (st : MainState) : Prop :=
  (∀ idx c, st.channelList[idx]? = some c → channelOf h f idx c) ∧
  st.started = st.channelList.flatMap channelTasks ∧
  ∀ c ∈ st.channelList, socketOf h c ∈ st.sockets

/-- The host binds a socket to the port asked for, unless that port is 0, for which the
kernel chooses a port. -/
def bindsRequested (h : Host) : Prop :=
  ∀ p : Int, p ≠ 0 → h.udpBound p = p

/-! ### Datagrams on the wire -/

/-- A UDP datagram as it arrives at a socket: payload and sender address. -/
structure Datagram where
  payload : Packet
  addr : UDPAddr
deriving DecidableEq, Repr

/-- The answer of `ReadFromUDP` when the datagram `d` is received. -/
def Datagram.received (d : Datagram) : ReadFromUDPResult :=
  .ok d.payload d.addr

/-! ### One packet across the tunnel -/

/-- One packet travelling from the TUN device of one endpoint to the TUN device of its
peer, both queues being empty before: `TunRecv` reads `data` from the device and sends
the slice on `tunRead`; `UdpSend` of channel `cA` receives it and calls `WriteToUDP`,
which answers `wr`; when the socket reports no error the network hands the bytes the
socket accepted, unchanged, as one datagram to the socket of the peer's channel `cB` with
sender `src`; `UdpRecv` of `cB` sends the slice read on `tunWrite`; `TunSend` of the peer
receives it and writes it to the device `tunB`.  The result is the peer's device
afterwards. -/
def forwardOne (data : Packet) (cA cB : UdpChannel) (src : UDPAddr) (wr : WriteResult)
    (tunB : tunLinux) : tunLinux :=
  match (TunRecvIter [] (.ok data)).1 with
  | [] => tunB
  | buff :: _ =>
    match (cA.UdpSendIter buff wr).sent with
    | none => tunB
    | some (body, _) =>
      if wr.err = none then
        match (cB.UdpRecvIter (.ok (body.take wr.n.toNat) src)).pushed with
        | none => tunB
        | some b => (TunSendIter tunB [b]).1
      else tunB

/-! ### Sample inputs -/

/-- An address of a peer. -/
def addrA : UDPAddr := { host := "10.0.0.1", port := 40000 }

/-- Another address. -/
def addrB : UDPAddr := { host := "10.0.0.2", port := 9000 }

/-- A channel in passive role before its first datagram. -/
def learningChannel : UdpChannel :=
  { port := 9001, conn := 1, remote := none, statPkg := 0, statSize := 0 }

/-- A channel with a remote endpoint. -/
def activeChannel : UdpChannel :=
  { port := 9000, conn := 0, remote := some addrA, statPkg := 0, statSize := 0 }

/-- A four-byte packet. -/
def pkt4 : Packet := [69, 0, 0, 4]

/-- A three-byte packet. -/
def pkt3 : Packet := [96, 1, 2]

/-- A pool of an active and a learning channel with one packet queued. -/
def mixedPool : Pool :=
  { channelList := [activeChannel, learningChannel], tunRead := [pkt4], sent := [],
    log := [] }

/-- A device file that accepts every write in full. -/
def goodFile : opentun.File :=
  { respond := fun _ p => { n := p.length, err := none }, writes := [] }

/-- A TUN device on `goodFile`. -/
def goodTun : tunLinux := { tunf := goodFile, mtu := 0, ifname := "opentun0" }

/-- An operating system whose physical interface has the MTU `m` and that accepts
every call. -/
def osWithMTU (m : Int) : opentun.OS :=
  { ifaceLookup := fun _ => .ok ⟨m⟩,
    openDev := fun _ => none,
    tunSetIff := fun _ => .ok "opentun0",
    linkByName := fun _ => none,
    addrAdd := fun _ _ => none,
    linkSetMTU := fun _ _ => none,
    linkSetUp := fun _ => none,
    routeAdd := fun _ _ => .ok }

/-- A host on which every port is free and a socket asked for port 0 is bound to port
45678, the random generator returns `40017 + k` at its `k`-th call, the peer `10.0.0.2`
resolves, and the physical interface has the MTU `m`. -/
def hostWithMTU (m : Int) : Host :=
  { rnd := fun k => 40017 + k,
    tcpListen := fun _ _ => none,
    udpListen := fun _ => none,
    udpBound := fun p => if p = 0 then 45678 else p,
    resolve := fun s =>
      if s = "10.0.0.2:9000" then .ok ⟨"10.0.0.2", 9000⟩
      else if s = "10.0.0.2:9001" then .ok ⟨"10.0.0.2", 9001⟩
      else if s = "10.0.0.2:9002" then .ok ⟨"10.0.0.2", 9002⟩
      else .error "no such host",
    parseCIDR := fun _ => .ok ("172.168.1.1", "172.168.0.0/16"),
    os := osWithMTU m }

/-- Flags of a passive endpoint: base port 9000, three channels. -/
def passiveFlags : Flags :=
  { help := false, IPnet := "172.168.1.1/16", Port := 9000, Number := 3, Server := "" }

/-- Flags of a passive endpoint with base port 0 and one channel. -/
def zeroPortFlags : Flags :=
  { help := false, IPnet := "172.168.1.1/16", Port := 0, Number := 1, Server := "" }

/-- Flags of an active endpoint: server `10.0.0.2`, base port 9000, three channels. -/
def activeFlags : Flags :=
  { help := false, IPnet := "172.168.1.2/16", Port := 9000, Number := 3,
    Server := "10.0.0.2" }

/-- Steps of a channel in passive role: the announce datagram, a forwarded datagram, a
packet sent, a packet whose send fails. -/
def sampleEvents : List ChanEvent :=
  [.recv (.ok pkt3 addrA), .recv (.ok pkt4 addrA), .send pkt3 ⟨3, none⟩,
    .send pkt4 ⟨0, some "network is unreachable"⟩]

/-- A schedule in which an iteration of `UdpRecv` and one of `UdpSend` overlap: both
load `c.statPkg` before either stores it. -/
def racySchedule : List MicroEvent :=
  [.recvBegin (.ok pkt4 addrA), .sendBegin pkt3 ⟨3, none⟩,
    .recvTick, .sendTick, .recvTick, .sendTick,
    .recvTick, .recvTick, .sendTick, .sendTick]

end Main

/-! ## Properties of `tun_linux.go` and `tun_multi_linux.go` -/

namespace opentun

/-- C5: `tunLinux.Write(p)` returns an error exactly when the device write reports
an error or accepts a byte count different from `len(p)`; it returns `nil` exactly when
the device accepted all `len(p)` bytes without error; and it performs exactly one device
write, of `p` (a partial write is not retried). -/
theorem tunLinux_Write_error_iff (tun : tunLinux) (p : Packet) :
    ((tun.Write p).1 ≠ none ↔
      ((tun.tunf.respond tun.tunf.writes.length p).err ≠ none ∨
        (tun.tunf.respond tun.tunf.writes.length p).n ≠ (p.length : Int))) ∧
    ((tun.Write p).1 = none ↔
      ((tun.tunf.respond tun.tunf.writes.length p).err = none ∧
        (tun.tunf.respond tun.tunf.writes.length p).n = (p.length : Int))) ∧
    (tun.Write p).2.tunf.writes = tun.tunf.writes ++ [p] := by
  unfold tunLinux.Write File.Write
  cases herr : (tun.tunf.respond tun.tunf.writes.length p).err with
  | some e => simp [herr]
  | none =>
    by_cases hn : (tun.tunf.respond tun.tunf.writes.length p).n = (p.length : Int)
    · simp [herr, hn]
    · simp [herr, hn]

/-- The device sees exactly one more write, of `p`, whatever it answers. -/
lemma tunLinux_Write_writes (tun : tunLinux) (p : Packet) :
    (tun.Write p).2.tunf.writes = tun.tunf.writes ++ [p] := by
  unfold tunLinux.Write File.Write
  cases herr : (tun.tunf.respond tun.tunf.writes.length p).err with
  | some e => simp [herr]
  | none =>
    by_cases hn : (tun.tunf.respond tun.tunf.writes.length p).n = (p.length : Int)
    · simp [herr, hn]
    · simp [herr, hn]

/-- Every `LinkSetMTU` call of `configureIface` is for the interface and the MTU it was
given. -/
lemma configureIface_setMTU (os : OS) (ifname ip ipnet : String) (mtu : Int)
    (name : String) (v : Int)
    (h : SysCall.linkSetMTU name v ∈ (configureIface os ifname ip ipnet mtu).1) :
    name = ifname ∧ v = mtu := by
  unfold configureIface at h
  split at h
  · simp at h
  · split at h
    · simp at h
    · split at h
      · simpa using h
      · split at h
        · simpa using h
        · split at h <;> simpa using h

/-- When `configureIface` returns `nil` it has set the MTU it was given. -/
lemma configureIface_ok (os : OS) (ifname ip ipnet : String) (mtu : Int)
    (h : (configureIface os ifname ip ipnet mtu).2 = none) :
    SysCall.linkSetMTU ifname mtu ∈ (configureIface os ifname ip ipnet mtu).1 := by
  cases h1 : os.linkByName ifname with
  | some e => simp [configureIface, h1] at h
  | none =>
    cases h2 : os.addrAdd ifname ip with
    | some e => simp [configureIface, h1, h2] at h
    | none =>
      cases h3 : os.linkSetMTU ifname mtu with
      | some e => simp [configureIface, h1, h2, h3]
      | none =>
        cases h4 : os.linkSetUp ifname with
        | some e => simp [configureIface, h1, h2, h3, h4]
        | none =>
          cases h5 : os.routeAdd ifname ipnet <;> simp [configureIface, h1, h2, h3, h4, h5]

/-- When every netlink call succeeds (an existing route is tolerated),
`configureIface` returns `nil`. -/
lemma configureIface_succeeds (os : OS) (ifname ip ipnet : String) (mtu : Int)
    (h1 : os.linkByName ifname = none) (h2 : os.addrAdd ifname ip = none)
    (h3 : os.linkSetMTU ifname mtu = none) (h4 : os.linkSetUp ifname = none)
    (h5 : ∀ e, os.routeAdd ifname ipnet ≠ .other e) :
    (configureIface os ifname ip ipnet mtu).2 = none := by
  cases h6 : os.routeAdd ifname ipnet with
  | other e => exact absurd h6 (h5 e)
  | ok => simp [configureIface, h1, h2, h3, h4, h6]
  | eexist => simp [configureIface, h1, h2, h3, h4, h6]

end opentun

namespace multique

open opentun (OS SysCall)

/-- The queue-opening loop makes no `LinkSetMTU` call. -/
lemma openQueues_no_setMTU (os : OS) (todo : Nat) :
    ∀ (i : Nat) (nm : String) (fds : List Nat) (name : String) (v : Int),
      SysCall.linkSetMTU name v ∉ (openQueues os todo i nm fds).1 := by
  induction todo with
  | zero => intro i nm fds name v; simp [openQueues]
  | succ n ih =>
    intro i nm fds name v
    unfold openQueues
    split
    · simp
    · split
      · simp
      · simpa using ih _ _ _ name v

/-- When every open and every ioctl succeeds, the loop returns the name the kernel
wrote back and one handle per round. -/
lemma openQueues_succeeds (os : OS) (name : String) (h1 : ∀ k, os.openDev k = none)
    (h2 : ∀ k, os.tunSetIff k = .ok name) (todo : Nat) :
    ∀ (i : Nat) (nm : String) (fds : List Nat),
      ∃ fds', (openQueues os (todo + 1) i nm fds).2 = .ok (name, fds') ∧
        fds'.length = fds.length + (todo + 1) := by
  induction todo with
  | zero =>
    intro i nm fds
    exact ⟨fds ++ [i], by simp [openQueues, h1, h2], by simp⟩
  | succ n ih =>
    intro i nm fds
    obtain ⟨fds', hq, hl⟩ := ih (i + 1) name (fds ++ [i])
    refine ⟨fds', ?_, ?_⟩
    · rw [openQueues]; simp only [h1, h2]; exact hq
    · rw [hl]; simp; omega

end multique

/-- The single-queue `OpenTun` after a successful interface lookup with a usable
MTU: the remaining steps. -/
lemma OpenTun_single_eq (os : opentun.OS) (ifname ip ipnet : String) (m : Int)
    (hm : os.ifaceLookup ifname = .ok ⟨m⟩) (h28 : 28 ≤ m) :
    opentun.OpenTun os ifname ip ipnet =
      match os.openDev 0 with
      | some e => ([.openDev 0], .error e)
      | none =>
        match os.tunSetIff 0 with
        | .error e => ([.openDev 0, .tunSetIff 0], .error e)
        | .ok name =>
          match (opentun.configureIface os name ip ipnet (m - 28)).2 with
          | some e =>
            ([.openDev 0, .tunSetIff 0] ++ (opentun.configureIface os name ip ipnet (m - 28)).1,
              .error e)
          | none =>
            ([.openDev 0, .tunSetIff 0] ++ (opentun.configureIface os name ip ipnet (m - 28)).1,
              .ok { fd := 0, mtu := 0, ifname := name }) := by
  have h0 : m ≠ 0 := by omega
  have hlt : ¬ m < 28 := by omega
  simp [opentun.OpenTun, opentun.InterfaceByName, hm, h0, hlt, opentun.encapOverhead]

/-- The multi-queue `OpenTun` after a successful interface lookup with a usable MTU:
the remaining steps. -/
lemma OpenTun_multi_eq (os : opentun.OS) (ifname ip ipnet : String) (cnt m : Int)
    (hm : os.ifaceLookup ifname = .ok ⟨m⟩) (h28 : 28 ≤ m) :
    multique.OpenTun os ifname ip ipnet cnt =
      match (multique.openQueues os cnt.toNat 0 multique.tunifaceName []).2 with
      | .error e => ((multique.openQueues os cnt.toNat 0 multique.tunifaceName []).1, .error e)
      | .ok (name, fds) =>
        match (opentun.configureIface os name ip ipnet (m - 28)).2 with
        | some e =>
          ((multique.openQueues os cnt.toNat 0 multique.tunifaceName []).1 ++
            (opentun.configureIface os name ip ipnet (m - 28)).1, .error e)
        | none =>
          ((multique.openQueues os cnt.toNat 0 multique.tunifaceName []).1 ++
            (opentun.configureIface os name ip ipnet (m - 28)).1,
            .ok { FD := fds, MTU := m - 28, Ifname := name }) := by
  have h0 : m ≠ 0 := by omega
  have hlt : ¬ m < 28 := by omega
  simp [multique.OpenTun, multique.interfaceByName, hm, h0, hlt, multique.encapOverhead,
    multique.configureIface]

/-- Both `OpenTun` functions fail before any system call when the interface MTU is
below the overhead. -/
lemma OpenTun_small (os : opentun.OS) (ifname ip ipnet : String) (cnt m : Int)
    (hm : os.ifaceLookup ifname = .ok ⟨m⟩) (hlt : m < 28) :
    opentun.OpenTun os ifname ip ipnet =
        ([], .error (if m = 0 then "failed to determine MTU for " ++ ifname ++ " interface"
                      else "interface " ++ ifname ++ " mtu is too small")) ∧
    multique.OpenTun os ifname ip ipnet cnt =
        ([], .error (if m = 0 then "failed to determine MTU for " ++ ifname ++ " interface"
                      else "interface " ++ ifname ++ " mtu is too small")) := by
  by_cases h0 : m = 0
  · simp [opentun.OpenTun, opentun.InterfaceByName, multique.OpenTun,
      multique.interfaceByName, hm, h0]
  · simp [opentun.OpenTun, opentun.InterfaceByName, multique.OpenTun,
      multique.interfaceByName, hm, h0, opentun.encapOverhead, multique.encapOverhead, hlt]

/-- C4: with `m` the MTU of the physical interface, both `OpenTun` functions fail
with an error, before any system call, when `m < 28`; every `LinkSetMTU` call they make
sets `m - 28`; a successful call has set the tunnel interface's MTU to `m - 28`, and the
multi-queue `Tunnel.MTU` is `m - 28`; and when `28 ≤ m` and the operating system accepts
every call, both succeed. -/
theorem OpenTun_mtu (os : opentun.OS) (ifname ip ipnet : String) (cnt m : Int)
    (hm : os.ifaceLookup ifname = .ok ⟨m⟩) :
    (m < 28 →
      opentun.OpenTun os ifname ip ipnet =
        ([], .error (if m = 0 then "failed to determine MTU for " ++ ifname ++ " interface"
                      else "interface " ++ ifname ++ " mtu is too small")) ∧
      multique.OpenTun os ifname ip ipnet cnt =
        ([], .error (if m = 0 then "failed to determine MTU for " ++ ifname ++ " interface"
                      else "interface " ++ ifname ++ " mtu is too small"))) ∧
    (∀ name v, opentun.SysCall.linkSetMTU name v ∈ (opentun.OpenTun os ifname ip ipnet).1 →
      v = m - 28) ∧
    (∀ name v,
      opentun.SysCall.linkSetMTU name v ∈ (multique.OpenTun os ifname ip ipnet cnt).1 →
      v = m - 28) ∧
    (∀ t, (opentun.OpenTun os ifname ip ipnet).2 = .ok t →
      28 ≤ m ∧
      opentun.SysCall.linkSetMTU t.ifname (m - 28) ∈ (opentun.OpenTun os ifname ip ipnet).1) ∧
    (∀ t, (multique.OpenTun os ifname ip ipnet cnt).2 = .ok t →
      28 ≤ m ∧ t.MTU = m - 28 ∧
      opentun.SysCall.linkSetMTU t.Ifname (m - 28) ∈
        (multique.OpenTun os ifname ip ipnet cnt).1) ∧
    (28 ≤ m → ∀ name, os.openDev 0 = none → os.tunSetIff 0 = .ok name →
      os.linkByName name = none → os.addrAdd name ip = none →
      os.linkSetMTU name (m - 28) = none → os.linkSetUp name = none →
      (∀ e, os.routeAdd name ipnet ≠ .other e) →
      (opentun.OpenTun os ifname ip ipnet).2 = .ok ⟨0, 0, name⟩) ∧
    (28 ≤ m → ∀ name, 0 < cnt → (∀ k, os.openDev k = none) →
      (∀ k, os.tunSetIff k = .ok name) →
      os.linkByName name = none → os.addrAdd name ip = none →
      os.linkSetMTU name (m - 28) = none → os.linkSetUp name = none →
      (∀ e, os.routeAdd name ipnet ≠ .other e) →
      ∃ fds, (multique.OpenTun os ifname ip ipnet cnt).2 = .ok ⟨fds, m - 28, name⟩ ∧
        fds.length = cnt.toNat) := by
  refine ⟨OpenTun_small os ifname ip ipnet cnt m hm, ?_, ?_, ?_, ?_, ?_, ?_⟩
  · intro name v hmem
    by_cases h28 : 28 ≤ m
    · rw [OpenTun_single_eq os ifname ip ipnet m hm h28] at hmem
      cases h1 : os.openDev 0 with
      | some e => simp [h1] at hmem
      | none =>
        cases h2 : os.tunSetIff 0 with
        | error e => simp [h1, h2] at hmem
        | ok nm =>
          cases h3 : (opentun.configureIface os nm ip ipnet (m - 28)).2 <;>
            simp [h1, h2, h3] at hmem <;>
            exact (opentun.configureIface_setMTU _ _ _ _ _ _ _ hmem).2
    · rw [(OpenTun_small os ifname ip ipnet cnt m hm (by omega)).1] at hmem
      simp at hmem
  · intro name v hmem
    by_cases h28 : 28 ≤ m
    · rw [OpenTun_multi_eq os ifname ip ipnet cnt m hm h28] at hmem
      cases h1 : (multique.openQueues os cnt.toNat 0 multique.tunifaceName []).2 with
      | error e =>
        simp [h1] at hmem
        exact absurd hmem (multique.openQueues_no_setMTU _ _ _ _ _ _ _)
      | ok q =>
        obtain ⟨nm, fds⟩ := q
        cases h3 : (opentun.configureIface os nm ip ipnet (m - 28)).2 <;>
          simp [h1, h3] at hmem <;>
          rcases hmem with hmem | hmem <;>
          first
            | exact absurd hmem (multique.openQueues_no_setMTU _ _ _ _ _ _ _)
            | exact (opentun.configureIface_setMTU _ _ _ _ _ _ _ hmem).2
    · rw [(OpenTun_small os ifname ip ipnet cnt m hm (by omega)).2] at hmem
      simp at hmem
  · intro t ht
    by_cases h28 : 28 ≤ m
    · refine ⟨h28, ?_⟩
      rw [OpenTun_single_eq os ifname ip ipnet m hm h28] at ht ⊢
      cases h1 : os.openDev 0 with
      | some e => simp [h1] at ht
      | none =>
        cases h2 : os.tunSetIff 0 with
        | error e => simp [h1, h2] at ht
        | ok nm =>
          cases h3 : (opentun.configureIface os nm ip ipnet (m - 28)).2 with
          | some e => simp [h1, h2, h3] at ht
          | none =>
            simp [h1, h2, h3] at ht ⊢
            subst ht
            exact opentun.configureIface_ok _ _ _ _ _ h3
    · rw [(OpenTun_small os ifname ip ipnet cnt m hm (by omega)).1] at ht
      simp at ht
  · intro t ht
    by_cases h28 : 28 ≤ m
    · refine ⟨h28, ?_⟩
      rw [OpenTun_multi_eq os ifname ip ipnet cnt m hm h28] at ht ⊢
      cases h1 : (multique.openQueues os cnt.toNat 0 multique.tunifaceName []).2 with
      | error e => simp [h1] at ht
      | ok q =>
        obtain ⟨nm, fds⟩ := q
        cases h3 : (opentun.configureIface os nm ip ipnet (m - 28)).2 with
        | some e => simp [h1, h3] at ht
        | none =>
          simp [h1, h3] at ht ⊢
          subst ht
          exact ⟨rfl, Or.inr (opentun.configureIface_ok _ _ _ _ _ h3)⟩
    · rw [(OpenTun_small os ifname ip ipnet cnt m hm (by omega)).2] at ht
      simp at ht
  · intro h28 name h1 h2 h3 h4 h5 h6 h7
    rw [OpenTun_single_eq os ifname ip ipnet m hm h28]
    simp [h1, h2, opentun.configureIface_succeeds os name ip ipnet (m - 28) h3 h4 h5 h6 h7]
  · intro h28 name hcnt h1 h2 h3 h4 h5 h6 h7
    obtain ⟨n, hn⟩ : ∃ n : Nat, cnt.toNat = n + 1 := ⟨cnt.toNat - 1, by omega⟩
    obtain ⟨fds, hq, hl⟩ :=
      multique.openQueues_succeeds os name h1 h2 n 0 multique.tunifaceName []
    refine ⟨fds, ?_, by simpa [hn] using hl⟩
    rw [OpenTun_multi_eq os ifname ip ipnet cnt m hm h28, hn]
    simp [hq, opentun.configureIface_succeeds os name ip ipnet (m - 28) h3 h4 h5 h6 h7]

/-- Values in the `int64` range are not changed by the wrap-around. -/
lemma wrapInt64_of_range (x : Int) (h1 : -2 ^ 63 ≤ x) (h2 : x < 2 ^ 63) :
    wrapInt64 x = x := by
  unfold wrapInt64
  omega

/-- Wrapping an intermediate sum does not change the wrapped total. -/
lemma wrapInt64_add (x y : Int) : wrapInt64 (wrapInt64 x + y) = wrapInt64 (x + y) := by
  unfold wrapInt64
  omega

/-! ## Properties of `example/main.go` -/

namespace Main

open opentun (tunLinux)

/-- The slice `buff[:cnt]` after a read into a fresh buffer holds the first `n` bytes
of the data, all of it when it fits. -/
lemma readInto_slice (n : Nat) (data : Packet) :
    (readInto (makeBuf n) data).2.take (readInto (makeBuf n) data).1 = data.take n := by
  simp only [readInto, makeBuf, List.length_replicate]
  apply List.take_left'
  simp [List.length_take, Nat.min_comm]

/-- The count returned by a read into a fresh buffer. -/
lemma readInto_count (n : Nat) (data : Packet) :
    (readInto (makeBuf n) data).1 = min data.length n := by
  simp [readInto, makeBuf]

/-- An iteration of `UdpRecv` on a channel without remote that receives a datagram:
the sender becomes the remote, nothing is pushed, the counters stay. -/
lemma UdpRecvIter_learning (c : UdpChannel) (d : Datagram) (h : c.remote = none) :
    c.UdpRecvIter d.received =
      { c := { c with remote := some d.addr }, pushed := none,
        log := ["connect from: " ++ addrString (some d.addr)], exit := false } := by
  simp [UdpChannel.UdpRecvIter, Datagram.received, h]

/-- An iteration of `UdpRecv` on a channel with a remote that receives a datagram: the
slice read is pushed and counted, the remote stays. -/
lemma UdpRecvIter_active (c : UdpChannel) (d : Datagram) (a : UDPAddr)
    (h : c.remote = some a) :
    c.UdpRecvIter d.received =
      { c := { c with statPkg := wrapInt64 (c.statPkg + 1),
                      statSize := wrapInt64 (c.statSize + ((min d.payload.length 1500 : Nat) : Int)) },
        pushed := some (d.payload.take 1500), log := [], exit := false } := by
  simp only [UdpChannel.UdpRecvIter, Datagram.received, h]
  rw [readInto_slice, readInto_count]

/-- `UdpRecv` on a channel with a remote: every datagram is pushed in arrival order,
the remote and the log stay. -/
lemma UdpRecv_active (ds : List Datagram) :
    ∀ (c : UdpChannel) (a : UDPAddr) (q : List Packet) (log : List String),
      c.remote = some a →
      (c.UdpRecv q log (ds.map Datagram.received)).c.remote = some a ∧
      (c.UdpRecv q log (ds.map Datagram.received)).tunWrite =
        q ++ ds.map (fun d => d.payload.take 1500) ∧
      (c.UdpRecv q log (ds.map Datagram.received)).log = log := by
  induction ds with
  | nil => intro c a q log h; simp [UdpChannel.UdpRecv, h]
  | cons d ds ih =>
    intro c a q log h
    simp only [List.map_cons, UdpChannel.UdpRecv, UdpRecvIter_active c d a h]
    simp only [Bool.false_eq_true, if_false, Option.toList, List.append_nil]
    obtain ⟨h1, h2, h3⟩ := ih ⟨c.port, c.conn, c.remote, wrapInt64 (c.statPkg + 1),
      wrapInt64 (c.statSize + ((min d.payload.length 1500 : Nat) : Int))⟩ a
      (q ++ [d.payload.take 1500]) log h
    exact ⟨h1, by rw [h2]; simp, h3⟩

/-- C1: on a channel whose remote is unset, `UdpRecv` processing the datagrams
`d1, rest` assigns the remote once, to the sender of `d1` (it is that address after
`d1` and after every later datagram, and the assignment is logged once); the payload
of `d1` is not pushed on `tunWrite`; and the slices read from the datagrams of `rest`
are pushed, each once and in arrival order: they are the payloads themselves for
datagrams that fit the 1500-byte receive buffer. -/
theorem UdpRecv_learns_once (c : UdpChannel) (q : List Packet) (log : List String)
    (d1 : Datagram) (rest : List Datagram) (hpassive : c.remote = none) :
    (c.UdpRecv q log [d1.received]).c.remote = some d1.addr ∧
    (c.UdpRecv q log [d1.received]).tunWrite = q ∧
    (∀ j, (c.UdpRecv q log ((d1 :: rest.take j).map Datagram.received)).c.remote
        = some d1.addr) ∧
    (c.UdpRecv q log ((d1 :: rest).map Datagram.received)).log =
      log ++ ["connect from: " ++ addrString (some d1.addr)] ∧
    (c.UdpRecv q log ((d1 :: rest).map Datagram.received)).tunWrite =
      q ++ rest.map (fun d => d.payload.take 1500) ∧
    ((∀ d ∈ rest, d.payload.length ≤ 1500) →
      (c.UdpRecv q log ((d1 :: rest).map Datagram.received)).tunWrite =
        q ++ rest.map Datagram.payload) := by
  have step : ∀ ds : List Datagram,
      c.UdpRecv q log ((d1 :: ds).map Datagram.received) =
        UdpChannel.UdpRecv { c with remote := some d1.addr } q
          (log ++ ["connect from: " ++ addrString (some d1.addr)])
          (ds.map Datagram.received) := by
    intro ds
    simp only [List.map_cons, UdpChannel.UdpRecv, UdpRecvIter_learning c d1 hpassive]
    simp
  have act := fun ds => UdpRecv_active ds { c with remote := some d1.addr } d1.addr q
    (log ++ ["connect from: " ++ addrString (some d1.addr)]) rfl
  refine ⟨?_, ?_, ?_, ?_, ?_, ?_⟩
  · simpa using (step []) ▸ (act []).1
  · have := (act []).2.1
    rw [← step []] at this
    simpa using this
  · intro j
    rw [step]
    exact (act _).1
  · rw [step]; exact (act _).2.2
  · rw [step]; exact (act _).2.1
  · intro hfit
    rw [step, (act _).2.1]
    congr 1
    apply List.map_congr_left
    intro d hd
    exact List.take_of_length_le (hfit d hd)

/-- C1, at an instance: a learning channel receiving three datagrams. -/
theorem UdpRecv_learns_once_witness :
    learningChannel.remote = none ∧
    (learningChannel.UdpRecv [] []
        (([⟨pkt3, addrA⟩, ⟨pkt4, addrA⟩, ⟨pkt3, addrB⟩] : List Datagram).map
          Datagram.received)).tunWrite = [] ++ [pkt4, pkt3] ∧
    (learningChannel.UdpRecv [] []
        (([⟨pkt3, addrA⟩, ⟨pkt4, addrA⟩, ⟨pkt3, addrB⟩] : List Datagram).map
          Datagram.received)).c.remote = some addrA :=
  ⟨rfl,
    (UdpRecv_learns_once learningChannel [] [] ⟨pkt3, addrA⟩ [⟨pkt4, addrA⟩, ⟨pkt3, addrB⟩]
      rfl).2.2.2.2.2 (by simp [pkt4, pkt3]),
    (UdpRecv_learns_once learningChannel [] [] ⟨pkt3, addrA⟩ [⟨pkt4, addrA⟩, ⟨pkt3, addrB⟩]
      rfl).2.2.1 2⟩

/-- C2, as stated, fails: in a pool with an active channel, the learning channel
receives the queued packet from `tunRead` and no channel sends it. -/
theorem pool_send_counterexample :
    (∃ c ∈ mixedPool.channelList, c.remote ≠ none) ∧
    mixedPool.tunRead = [pkt4] ∧
    (mixedPool.UdpSend 1 ⟨4, none⟩).tunRead = [] ∧
    (mixedPool.UdpSend 1 ⟨4, none⟩).sent = [] ∧
    (mixedPool.UdpSend 1 ⟨4, none⟩).log = [] := by
  refine ⟨⟨activeChannel, by simp [mixedPool], by simp [activeChannel]⟩, rfl, rfl, rfl, rfl⟩

/-- C2, amended: when channel `i` receives the packet `P` from `tunRead`, `P` leaves
the queue and `WriteToUDP` is called for it at most once: exactly once, by channel `i`
to its remote, when channel `i` has a remote, and not at all when it has none; no
other channel is changed. -/
theorem pool_send_at_most_once (p : Pool) (i : Nat) (c : UdpChannel) (P : Packet)
    (rest : List Packet) (w : WriteResult)
    (hc : p.channelList[i]? = some c) (hq : p.tunRead = P :: rest) :
    (p.UdpSend i w).tunRead = rest ∧
    (∀ r, c.remote = some r → (p.UdpSend i w).sent = p.sent ++ [(i, P, r)]) ∧
    (c.remote = none → (p.UdpSend i w).sent = p.sent ∧ (p.UdpSend i w).log = p.log) ∧
    (∀ j, j ≠ i → (p.UdpSend i w).channelList[j]? = p.channelList[j]?) := by
  have hstep : p.UdpSend i w =
      { channelList := p.channelList.set i (c.UdpSendIter P w).c,
        tunRead := rest,
        sent := p.sent ++ ((c.UdpSendIter P w).sent.toList.map fun x => (i, x.1, x.2)),
        log := p.log ++ (c.UdpSendIter P w).log } := by
    simp [Pool.UdpSend, hc, hq]
  refine ⟨by rw [hstep], ?_, ?_, ?_⟩
  · intro r hr
    rw [hstep]
    cases he : w.err <;> simp [UdpChannel.UdpSendIter, hr, he]
  · intro hr
    rw [hstep]
    simp [UdpChannel.UdpSendIter, hr]
  · intro j hj
    rw [hstep]
    simp [List.getElem?_set, Ne.symm hj]

/-- C2 amended, at an instance: the active channel of the pool receives the packet. -/
theorem pool_send_at_most_once_witness :
    mixedPool.channelList[0]? = some activeChannel ∧ mixedPool.tunRead = pkt4 :: [] ∧
    (mixedPool.UdpSend 0 ⟨4, none⟩).sent = [] ++ [(0, pkt4, addrA)] :=
  ⟨rfl, rfl, (pool_send_at_most_once mixedPool 0 activeChannel pkt4 [] ⟨4, none⟩ rfl rfl).2.1
    addrA rfl⟩

/-- C3: a packet read by `TunRecv` (the slice `p = buff[:cnt]` of the device data),
sent by `UdpSend` of a channel with a remote on a socket that accepts it in full,
received by `UdpRecv` of the peer's channel with a remote and handed by `TunSend` to the
peer's device is passed to the peer's `Write` as exactly `p`: that is the one write the
peer's device sees, and `p` is the device data itself when it fits the 1500-byte read
buffer. -/
theorem round_trip (data : Packet) (cA cB : UdpChannel) (rA rB src : UDPAddr)
    (wr : WriteResult) (tunB : tunLinux)
    (hA : cA.remote = some rB) (hB : cB.remote = some rA) (hwr : wr.err = none)
    (hn : wr.n = ((data.take 1500).length : Int)) :
    (TunRecvIter [] (.ok data)).1 = [data.take 1500] ∧
    (cA.UdpSendIter (data.take 1500) wr).sent = some (data.take 1500, rB) ∧
    (cB.UdpRecvIter (.ok (data.take 1500) src)).pushed = some (data.take 1500) ∧
    (forwardOne data cA cB src wr tunB).tunf.writes = tunB.tunf.writes ++ [data.take 1500] ∧
    (data.length ≤ 1500 →
      (forwardOne data cA cB src wr tunB).tunf.writes = tunB.tunf.writes ++ [data]) := by
  have h1 : (TunRecvIter [] (.ok data)).1 = [data.take 1500] := by
    simp [TunRecvIter, readInto_slice]
  have h2 : (cA.UdpSendIter (data.take 1500) wr).sent = some (data.take 1500, rB) := by
    simp [UdpChannel.UdpSendIter, hA, hwr]
  have h3 : (cB.UdpRecvIter (.ok (data.take 1500) src)).pushed = some (data.take 1500) := by
    have := UdpRecvIter_active cB ⟨data.take 1500, src⟩ rA hB
    simp only [Datagram.received] at this
    rw [this]
    simp
  have hfull : (data.take 1500).take wr.n.toNat = data.take 1500 := by
    apply List.take_of_length_le
    rw [hn]
    simp
    omega
  have h4 : (forwardOne data cA cB src wr tunB).tunf.writes =
      tunB.tunf.writes ++ [data.take 1500] := by
    simp only [forwardOne, h1, h2, hwr, if_true, hfull, h3]
    have hw := opentun.tunLinux_Write_writes tunB (data.take 1500)
    simp only [TunSendIter]
    split <;> exact hw
  refine ⟨h1, h2, h3, h4, ?_⟩
  intro hfit
  rw [h4, List.take_of_length_le hfit]

/-- C3, at an instance: a four-byte packet crosses the tunnel unchanged. -/
theorem round_trip_witness :
    activeChannel.remote = some addrA ∧ (⟨4, none⟩ : WriteResult).err = none ∧
    (⟨4, none⟩ : WriteResult).n = ((pkt4.take 1500).length : Int) ∧
    (forwardOne pkt4 activeChannel activeChannel addrB ⟨4, none⟩ goodTun).tunf.writes =
      goodTun.tunf.writes ++ [pkt4] :=
  ⟨rfl, rfl, by decide,
    (round_trip pkt4 activeChannel activeChannel addrA addrA addrB ⟨4, none⟩ goodTun rfl rfl
      rfl (by decide)).2.2.2.2 (by simp [pkt4])⟩

/-- C6: when `UdpSend` sends a packet on its socket and the socket accepts fewer bytes
than submitted, `WriteToUDP` returns an error, `UdpSend` logs that error, and the packet
is counted neither in `statPkg` nor in `statSize`. -/
theorem UdpSend_short_write_reported (c : UdpChannel) (buff : Packet) (w : WriteResult)
    (r : UDPAddr) (hr : c.remote = some r) (hw : WriteToUDPAnswer buff w)
    (hshort : w.n < (buff.length : Int)) :
    ∃ e, w.err = some e ∧
      (c.UdpSendIter buff w).sent = some (buff, r) ∧
      (c.UdpSendIter buff w).log = [e] ∧
      (c.UdpSendIter buff w).c.statPkg = c.statPkg ∧
      (c.UdpSendIter buff w).c.statSize = c.statSize := by
  rcases hw with ⟨_, hn⟩ | ⟨he, _⟩
  · omega
  · cases herr : w.err with
    | none => exact absurd herr he
    | some e => exact ⟨e, rfl, by simp [UdpChannel.UdpSendIter, hr, herr]⟩

/-- C6, at an instance: the network is unreachable and no byte of a four-byte packet is
accepted. -/
theorem UdpSend_short_write_reported_witness :
    activeChannel.remote = some addrA ∧
    WriteToUDPAnswer pkt4 ⟨0, some "network is unreachable"⟩ ∧
    ((0 : Int) < (pkt4.length : Int)) ∧
    ∃ e, (⟨0, some "network is unreachable"⟩ : WriteResult).err = some e ∧
      (activeChannel.UdpSendIter pkt4 ⟨0, some "network is unreachable"⟩).sent =
        some (pkt4, addrA) ∧
      (activeChannel.UdpSendIter pkt4 ⟨0, some "network is unreachable"⟩).log = [e] ∧
      (activeChannel.UdpSendIter pkt4 ⟨0, some "network is unreachable"⟩).c.statPkg =
        activeChannel.statPkg ∧
      (activeChannel.UdpSendIter pkt4 ⟨0, some "network is unreachable"⟩).c.statSize =
        activeChannel.statSize :=
  ⟨rfl, Or.inr ⟨by simp, rfl⟩, by decide,
    UdpSend_short_write_reported activeChannel pkt4 ⟨0, some "network is unreachable"⟩ addrA
      rfl (Or.inr ⟨by simp, rfl⟩) (by decide)⟩

/-- Running one schedule after another. -/
lemma ChanSys.run_append (s : ChanSys) (l1 l2 : List MicroEvent) :
    s.run (l1 ++ l2) = (s.run l1).run l2 := by
  simp [ChanSys.run, List.foldl_append]

/-- An iteration of `UdpRecv` or `UdpSend` that runs without another goroutine of the
channel in between, from a quiescent state, keeps the counters in agreement and leaves a
quiescent state. -/
lemma countersMatch_iteration (s : ChanSys) (ev : ChanEvent) (hev : ev ≠ .report)
    (hq : s.quiescent) (h : countersMatch s) :
    (s.run ev.micro).quiescent ∧ countersMatch (s.run ev.micro) := by
  obtain ⟨c, rp, sp, dp, ex, tw, snt, reps, lg⟩ := s
  obtain ⟨h1, h2, h3⟩ := hq
  simp only at h1 h2 h3
  subst h1 h2 h3
  obtain ⟨hp, hs⟩ := h
  simp only [ChanSys.forwardedCount, ChanSys.forwardedBytes] at hp hs
  cases ev with
  | report => exact absurd rfl hev
  | recv r =>
    cases ex with
    | true =>
      simp [ChanSys.run, ChanEvent.micro, ChanSys.step, updateTick, ChanSys.quiescent,
        countersMatch, ChanSys.forwardedCount, ChanSys.forwardedBytes, hp, hs]
    | false =>
      cases r with
      | eof =>
        simp [ChanSys.run, ChanEvent.micro, ChanSys.step, updateTick, ChanSys.quiescent,
          countersMatch, ChanSys.forwardedCount, ChanSys.forwardedBytes, hp, hs]
      | fail e =>
        simp [ChanSys.run, ChanEvent.micro, ChanSys.step, updateTick, ChanSys.quiescent,
          countersMatch, ChanSys.forwardedCount, ChanSys.forwardedBytes, hp, hs]
      | ok data addr =>
        cases hr : c.remote with
        | none =>
          simp [ChanSys.run, ChanEvent.micro, ChanSys.step, updateTick, ChanSys.quiescent,
            countersMatch, ChanSys.forwardedCount, ChanSys.forwardedBytes, hp, hs, hr]
        | some a =>
          simp only [ChanSys.run, ChanEvent.micro, ChanSys.step, updateTick,
            ChanSys.quiescent, countersMatch, ChanSys.forwardedCount,
            ChanSys.forwardedBytes, hr, List.foldl_cons, List.foldl_nil,
            Bool.false_eq_true, if_false, readInto_slice]
          simp only [readInto_count, List.length_append, List.length_singleton, List.map_append,
            List.sum_append, List.map_cons, List.map_nil, List.sum_cons, List.sum_nil,
            List.length_take, and_self, true_and]
          constructor
          · rw [hp, wrapInt64_add]; congr 1; omega
          · rw [hs, wrapInt64_add]; congr 1; omega
  | send buff w =>
    cases hr : c.remote with
    | none =>
      simp [ChanSys.run, ChanEvent.micro, ChanSys.step, updateTick, ChanSys.quiescent,
        countersMatch, ChanSys.forwardedCount, ChanSys.forwardedBytes, hp, hs, hr]
    | some a =>
      cases he : w.err with
      | some e =>
        simp [ChanSys.run, ChanEvent.micro, ChanSys.step, updateTick, ChanSys.quiescent,
          countersMatch, ChanSys.forwardedCount, ChanSys.forwardedBytes, hp, hs, hr, he,
          okSends, List.filter_append]
      | none =>
        simp only [ChanSys.run, ChanEvent.micro, ChanSys.step, updateTick,
          ChanSys.quiescent, countersMatch, ChanSys.forwardedCount,
          ChanSys.forwardedBytes, hr, he, okSends, List.foldl_cons, List.foldl_nil,
          List.filter_append, List.filter_cons, List.filter_nil, decide_True, if_true,
          List.length_append, List.length_singleton, List.map_append, List.sum_append,
          List.map_cons, List.map_nil, List.sum_cons, List.sum_nil, and_self, true_and]
        simp only [okSends] at hp hs
        constructor
        · rw [hp, wrapInt64_add]; congr 1
        · rw [hs, wrapInt64_add]; congr 1; omega

/-- Iterations of `UdpRecv` and `UdpSend` run one after the other keep the counters in
agreement. -/
lemma countersMatch_sequential (evs : List ChanEvent) :
    ∀ s : ChanSys, ChanEvent.report ∉ evs → s.quiescent → countersMatch s →
      countersMatch (s.run (sequentialSchedule evs)) := by
  induction evs with
  | nil => intro s _ _ h; exact h
  | cons ev evs ih =>
    intro s hno hq h
    simp only [List.mem_cons, not_or] at hno
    obtain ⟨hq', h'⟩ := countersMatch_iteration s ev (Ne.symm hno.1) hq h
    have := ih (s.run ev.micro) hno.2 hq' h'
    simpa [sequentialSchedule, List.flatMap_cons, ChanSys.run_append] using this

set_option maxRecDepth 8000 in
/-- C10, as stated, fails: a channel with zeroed counters forwards two packets, a
datagram pushed on `tunWrite` by `UdpRecv` and a packet sent by `UdpSend`; the two
goroutines both load `c.statPkg` before either stores it, and the packet counter ends
at 1. -/
theorem channel_accounting_counterexample :
    activeChannel.statPkg = 0 ∧ activeChannel.statSize = 0 ∧
    ((ChanSys.start activeChannel).run racySchedule).quiescent ∧
    ((ChanSys.start activeChannel).run racySchedule).tunWrite = [pkt4] ∧
    ((ChanSys.start activeChannel).run racySchedule).sent = [(pkt3, addrA, ⟨3, none⟩)] ∧
    ((ChanSys.start activeChannel).run racySchedule).forwardedCount = 2 ∧
    ((ChanSys.start activeChannel).run racySchedule).c.statPkg = 1 := by
  refine ⟨rfl, rfl, ⟨by decide, by decide, by decide⟩, by decide, by decide, by decide,
    by decide⟩

/-- C10, amended: a channel started with zeroed counters whose iterations of `UdpRecv`
and `UdpSend` run one at a time, none overlapping another, has, modulo the `int64`
range, a packet counter equal to the number `k` of packets it forwarded (slices pushed
on `tunWrite`, packets whose `WriteToUDP` returned no error) and a byte counter equal to
the sum of their lengths, exactly so while these are below `2^63`; in any schedule the
learning datagram, a packet discarded for lack of a remote and a failed send touch
neither counter; and an iteration of `Display` that runs without another goroutine in
between emits the port, the packet counter and the byte counter divided by `1024*1024`
with truncation, then zeroes both counters and leaves port and remote unchanged. -/
theorem channel_accounting (c : UdpChannel) (evs : List ChanEvent)
    (hpkg : c.statPkg = 0) (hsize : c.statSize = 0) (hnorep : ChanEvent.report ∉ evs) :
    ((ChanSys.start c).run (sequentialSchedule evs)).c.statPkg =
      wrapInt64 (((ChanSys.start c).run (sequentialSchedule evs)).forwardedCount : Int) ∧
    ((ChanSys.start c).run (sequentialSchedule evs)).c.statSize =
      wrapInt64 (((ChanSys.start c).run (sequentialSchedule evs)).forwardedBytes : Int) ∧
    ((((ChanSys.start c).run (sequentialSchedule evs)).forwardedCount : Int) < 2 ^ 63 →
      ((ChanSys.start c).run (sequentialSchedule evs)).c.statPkg =
        ((ChanSys.start c).run (sequentialSchedule evs)).forwardedCount) ∧
    ((((ChanSys.start c).run (sequentialSchedule evs)).forwardedBytes : Int) < 2 ^ 63 →
      ((ChanSys.start c).run (sequentialSchedule evs)).c.statSize =
        ((ChanSys.start c).run (sequentialSchedule evs)).forwardedBytes) ∧
    (∀ (s : ChanSys) (d : Datagram), s.c.remote = none →
      (s.step (.recvBegin d.received)).tunWrite = s.tunWrite ∧
      (s.step (.recvBegin d.received)).recvPc = s.recvPc ∧
      (s.step (.recvBegin d.received)).c.statPkg = s.c.statPkg ∧
      (s.step (.recvBegin d.received)).c.statSize = s.c.statSize) ∧
    (∀ (s : ChanSys) (buff : Packet) (w : WriteResult), s.c.remote = none →
      s.step (.sendBegin buff w) = s) ∧
    (∀ (s : ChanSys) (buff : Packet) (w : WriteResult), w.err ≠ none →
      (s.step (.sendBegin buff w)).sendPc = s.sendPc ∧
      (s.step (.sendBegin buff w)).c = s.c) ∧
    (∀ s : ChanSys, s.displayPc = .idle →
      (s.run (ChanEvent.micro .report)).reports =
        s.reports ++ [(s.c.port, s.c.statPkg, Int.tdiv s.c.statSize (1024 * 1024))] ∧
      (s.run (ChanEvent.micro .report)).displayPc = .idle ∧
      (s.run (ChanEvent.micro .report)).c.statPkg = 0 ∧
      (s.run (ChanEvent.micro .report)).c.statSize = 0 ∧
      (s.run (ChanEvent.micro .report)).c.port = s.c.port ∧
      (s.run (ChanEvent.micro .report)).c.remote = s.c.remote) := by
  have h0 : countersMatch (ChanSys.start c) := by
    simp [countersMatch, ChanSys.start, ChanSys.forwardedCount, ChanSys.forwardedBytes,
      okSends, hpkg, hsize, wrapInt64]
  obtain ⟨h1, h2⟩ := countersMatch_sequential evs (ChanSys.start c) hnorep
    ⟨rfl, rfl, rfl⟩ h0
  refine ⟨h1, h2, ?_, ?_, ?_, ?_, ?_, ?_⟩
  · intro hk
    rw [h1]
    exact wrapInt64_of_range _ (by omega) hk
  · intro hk
    rw [h2]
    exact wrapInt64_of_range _ (by omega) hk
  · intro s d hr
    cases hx : s.recvExited <;> cases hpc : s.recvPc <;>
      simp [ChanSys.step, Datagram.received, hx, hpc, hr]
  · intro s buff w hr
    cases hpc : s.sendPc <;> simp [ChanSys.step, hpc, hr]
  · intro s buff w he
    cases he' : w.err with
    | none => exact absurd he' he
    | some e =>
      cases hpc : s.sendPc <;> cases hr : s.c.remote <;>
        simp [ChanSys.step, hpc, hr, he']
  · intro s hd
    simp [ChanSys.run, ChanEvent.micro, ChanSys.step, hd]

set_option maxRecDepth 8000 in
/-- C10 amended, at an instance: a channel receives the announce datagram and one more
datagram, sends one packet and fails to send another, one iteration after the other:
two packets and seven bytes are counted. -/
theorem channel_accounting_witness :
    learningChannel.statPkg = 0 ∧ learningChannel.statSize = 0 ∧
    ChanEvent.report ∉ sampleEvents ∧
    ((ChanSys.start learningChannel).run (sequentialSchedule sampleEvents)).forwardedCount
      = 2 ∧
    ((ChanSys.start learningChannel).run (sequentialSchedule sampleEvents)).forwardedBytes
      = 7 ∧
    ((ChanSys.start learningChannel).run (sequentialSchedule sampleEvents)).c.statPkg =
      wrapInt64 (((ChanSys.start learningChannel).run
        (sequentialSchedule sampleEvents)).forwardedCount : Int) ∧
    ((ChanSys.start learningChannel).run (sequentialSchedule sampleEvents)).c.statSize =
      wrapInt64 (((ChanSys.start learningChannel).run
        (sequentialSchedule sampleEvents)).forwardedBytes : Int) :=
  ⟨rfl, rfl, by decide, by decide, by decide,
    (channel_accounting learningChannel sampleEvents rfl rfl (by decide)).1,
    (channel_accounting learningChannel sampleEvents rfl rfl (by decide)).2.1⟩

/-! ### Start-up -/

/-- The remote string `main` builds in active role is not empty. -/
lemma remote_string_ne_empty (server : String) (x : Int) :
    server ++ ":" ++ toString x ≠ "" := by
  intro hcontra
  have hlen := congrArg String.length hcontra
  simp only [String.length_append] at hlen
  have h1 : (":" : String).length = 1 := rfl
  have h2 : ("" : String).length = 0 := rfl
  omega

/-- A port returned by `UnusedPort` is a candidate drawn in the fixed range that passed
the TCP check, and every candidate drawn before it was refused. -/
lemma UnusedPort_spec (h : Host) (fuel : Nat) :
    ∀ (k : Nat) (port : Int) (k' : Nat), UnusedPort h fuel k = some (port, k') →
      ∃ j, k ≤ j ∧ k' = j + 1 ∧ port = (h.rnd j : Int) % 40000 + 10000 ∧
        h.tcpListen j port = none ∧
        ∀ j', k ≤ j' → j' < j → h.tcpListen j' ((h.rnd j' : Int) % 40000 + 10000) ≠ none := by
  induction fuel with
  | zero => intro k port k' hret; simp [UnusedPort] at hret
  | succ n ih =>
    intro k port k' hret
    unfold UnusedPort at hret
    simp only [IsUsedPort] at hret
    by_cases hfree : h.tcpListen k ((h.rnd k : Int) % (50000 - 10000) + 10000) = none
    · rw [if_pos hfree] at hret
      simp only [Option.some.injEq, Prod.mk.injEq] at hret
      obtain ⟨hp, hk⟩ := hret
      refine ⟨k, le_refl k, hk.symm, by rw [← hp]; norm_num, ?_, ?_⟩
      · rw [← hp]; exact hfree
      · intro j' h1 h2; omega
    · rw [if_neg hfree] at hret
      obtain ⟨j, hj1, hj2, hj3, hj4, hj5⟩ := ih (k + 1) port k' hret
      refine ⟨j, by omega, hj2, hj3, hj4, ?_⟩
      intro j' h1 h2
      by_cases hjk : j' = k
      · subst hjk
        have : (50000 : Int) - 10000 = 40000 := by norm_num
        rw [this] at hfree
        exact hfree
      · exact hj5 j' (by omega) h2

/-- `UnusedPort` returns the first candidate that passes the TCP check, given fuel for
the candidates refused before it. -/
lemma UnusedPort_returns (h : Host) (j : Nat)
    (hfree : h.tcpListen j ((h.rnd j : Int) % 40000 + 10000) = none) (fuel : Nat) :
    ∀ k, k ≤ j → j - k < fuel →
      (∀ j', k ≤ j' → j' < j → h.tcpListen j' ((h.rnd j' : Int) % 40000 + 10000) ≠ none) →
      UnusedPort h fuel k = some ((h.rnd j : Int) % 40000 + 10000, j + 1) := by
  induction fuel with
  | zero => intro k _ hlt; omega
  | succ n ih =>
    intro k hkj hlt hbusy
    have h4 : (50000 : Int) - 10000 = 40000 := by norm_num
    unfold UnusedPort
    simp only [IsUsedPort, h4]
    by_cases hjk : k = j
    · subst hjk
      rw [if_pos hfree]
    · rw [if_neg (hbusy k (le_refl k) (by omega))]
      exact ih (k + 1) (by omega) (by omega) (fun j' h1 h2 => hbusy j' (by omega) h2)

/-- `NewUdpChannel` returning `nil`: it appended one channel, with the port given, the
next socket, zero counters and the resolved remote (none for the empty string), and
started its three goroutines. -/
lemma NewUdpChannel_ok (h : Host) (st : MainState) (port : Int) (remote : String)
    (hok : (NewUdpChannel h st port remote).1 = none) :
    ∃ c : UdpChannel,
      c.port = port ∧ c.conn = st.channelList.length ∧ c.statPkg = 0 ∧ c.statSize = 0 ∧
      h.udpListen port = none ∧
      (remote = "" → c.remote = none) ∧
      (remote ≠ "" → ∃ a, h.resolve remote = .ok a ∧ c.remote = some a) ∧
      (NewUdpChannel h st port remote).2.channelList = st.channelList ++ [c] ∧
      (NewUdpChannel h st port remote).2.started = st.started ++ channelTasks c ∧
      (NewUdpChannel h st port remote).2.sockets = st.sockets ++ [socketOf h c] := by
  unfold NewUdpChannel at hok ⊢
  cases hl : h.udpListen port with
  | some e => simp [hl] at hok
  | none =>
    by_cases hr : remote = ""
    · subst hr
      exact ⟨⟨port, st.channelList.length, none, 0, 0⟩, by simp [channelTasks, socketOf]⟩
    · cases hres : h.resolve remote with
      | error e => simp [hl, hr, hres, Except.map] at hok
      | ok a =>
        exact ⟨⟨port, st.channelList.length, some a, 0, 0⟩, by
          simp [hr, hres, Except.map, channelTasks, socketOf]⟩

/-- `NewUdpChannel` returning an error: no channel was appended, no goroutine
started. -/
lemma NewUdpChannel_fail (h : Host) (st : MainState) (port : Int) (remote : String)
    (e : String) (herr : (NewUdpChannel h st port remote).1 = some e) :
    (NewUdpChannel h st port remote).2.channelList = st.channelList ∧
    (NewUdpChannel h st port remote).2.started = st.started ∧
    ∀ x ∈ st.sockets, x ∈ (NewUdpChannel h st port remote).2.sockets := by
  unfold NewUdpChannel at herr ⊢
  cases hl : h.udpListen port with
  | some e' => simp
  | none =>
    by_cases hr : remote = ""
    · subst hr; simp [hl] at herr
    · cases hres : h.resolve remote with
      | error e' =>
        simp only [hr, Except.map, ne_eq, not_false_eq_true, if_true, true_and]
        intro x hx
        exact List.mem_append_left _ hx
      | ok a => simp [hl, hr, hres, Except.map] at herr

/-- Appending the channel of the next round keeps `loopInv`. -/
lemma loopInv_append (h : Host) (f : Flags) (st st' : MainState) (c : UdpChannel)
    (hinv : loopInv h f st) (hc : channelOf h f st.channelList.length c)
    (h1 : st'.channelList = st.channelList ++ [c])
    (h2 : st'.started = st.started ++ channelTasks c)
    (h3 : st'.sockets = st.sockets ++ [socketOf h c]) : loopInv h f st' := by
  obtain ⟨hall, hst, hsock⟩ := hinv
  refine ⟨?_, ?_, ?_⟩
  · intro idx c' hget
    rw [h1] at hget
    by_cases hlt : idx < st.channelList.length
    · rw [List.getElem?_append_left hlt] at hget
      exact hall idx c' hget
    · by_cases heq : idx = st.channelList.length
      · subst heq
        rw [List.getElem?_concat_length] at hget
        cases hget
        exact hc
      · rw [List.getElem?_append_right (by omega)] at hget
        have hpos : 0 < idx - st.channelList.length := by omega
        obtain ⟨n, hn⟩ : ∃ n, idx - st.channelList.length = n + 1 := ⟨_, (Nat.succ_pred_eq_of_pos hpos).symm⟩
        rw [hn] at hget
        simp at hget
  · rw [h1, h2, hst]
    simp
  · intro c' hc'
    rw [h1] at hc'
    rw [h3]
    rcases List.mem_append.mp hc' with hm | hm
    · exact List.mem_append_left _ (hsock c' hm)
    · simp only [List.mem_singleton] at hm
      subst hm
      simp

/-- The loop body in passive role. -/
lemma loopBody_passive (h : Host) (f : Flags) (fuel : Nat) (i : Int) (st : MainState)
    (hS : f.Server = "") :
    loopBody h f fuel i st =
      match (NewUdpChannel h st (wrapInt64 (f.Port + i)) "").1 with
      | some e =>
        ({ (NewUdpChannel h st (wrapInt64 (f.Port + i)) "").2 with
            log := (NewUdpChannel h st (wrapInt64 (f.Port + i)) "").2.log ++ [e] },
          some (.channelFailed e))
      | none => ((NewUdpChannel h st (wrapInt64 (f.Port + i)) "").2, none) := by
  simp [loopBody, hS]

/-- The loop body in active role, once `UnusedPort` returned. -/
lemma loopBody_active (h : Host) (f : Flags) (fuel : Nat) (i : Int) (st : MainState)
    (hS : f.Server ≠ "") (port : Int) (k : Nat)
    (hu : UnusedPort h fuel st.rndCalls = some (port, k)) :
    loopBody h f fuel i st =
      match (NewUdpChannel h { st with rndCalls := k } port
          (f.Server ++ ":" ++ toString (wrapInt64 (f.Port + i)))).1 with
      | some e =>
        ({ (NewUdpChannel h { st with rndCalls := k } port
              (f.Server ++ ":" ++ toString (wrapInt64 (f.Port + i)))).2 with
            log := (NewUdpChannel h { st with rndCalls := k } port
              (f.Server ++ ":" ++ toString (wrapInt64 (f.Port + i)))).2.log ++ [e] },
          some (.channelFailed e))
      | none =>
        ((NewUdpChannel h { st with rndCalls := k } port
          (f.Server ++ ":" ++ toString (wrapInt64 (f.Port + i)))).2, none) := by
  simp [loopBody, hS, hu]

/-- One round of the loop: when it lets the loop continue it has appended the channel
of that round and its socket; when it makes `main` return, the channels and goroutines
are as before and no socket was closed. -/
lemma loopBody_step (h : Host) (f : Flags) (fuel : Nat) (i : Int) (st : MainState)
    (hinv : loopInv h f st) (hi : i = (st.channelList.length : Int)) :
    ((loopBody h f fuel i st).2 = none →
      loopInv h f (loopBody h f fuel i st).1 ∧
      (loopBody h f fuel i st).1.channelList.length = st.channelList.length + 1 ∧
      ∃ c, (loopBody h f fuel i st).1.channelList = st.channelList ++ [c] ∧
        (loopBody h f fuel i st).1.sockets = st.sockets ++ [socketOf h c]) ∧
    (∀ o, (loopBody h f fuel i st).2 = some o →
      (loopBody h f fuel i st).1.channelList = st.channelList ∧
      (loopBody h f fuel i st).1.started = st.started ∧
      (∀ x ∈ st.sockets, x ∈ (loopBody h f fuel i st).1.sockets) ∧
      (o = .portSearch ∨ ∃ e, o = .channelFailed e)) := by
  by_cases hS : f.Server = ""
  · rw [loopBody_passive h f fuel i st hS]
    cases hr : (NewUdpChannel h st (wrapInt64 (f.Port + i)) "").1 with
    | some e =>
      obtain ⟨hf1, hf2, hf3⟩ := NewUdpChannel_fail h st _ _ e hr
      refine ⟨by simp, ?_⟩
      intro o ho
      simp only [Option.some.injEq] at ho
      exact ⟨hf1, hf2, hf3, Or.inr ⟨e, ho.symm⟩⟩
    | none =>
      obtain ⟨c, hc1, hc2, hc3, hc4, hc5, hc6, _, hc8, hc9, hc10⟩ :=
        NewUdpChannel_ok h st _ _ hr
      refine ⟨fun _ => ⟨?_, by simp [hc8], c, hc8, hc10⟩, by simp⟩
      refine loopInv_append h f st _ c hinv ?_ hc8 hc9 hc10
      refine ⟨hc2, hc3, hc4, by rw [hc1]; exact hc5, ?_, fun hne => absurd hS hne⟩
      intro _
      exact ⟨by rw [hc1, hi], hc6 rfl⟩
  · cases hu : UnusedPort h fuel st.rndCalls with
    | none =>
      have : loopBody h f fuel i st = (st, some .portSearch) := by simp [loopBody, hS, hu]
      rw [this]
      refine ⟨by simp, ?_⟩
      intro o ho
      simp only [Option.some.injEq] at ho
      exact ⟨rfl, rfl, fun x hx => hx, Or.inl ho.symm⟩
    | some pk =>
      obtain ⟨port, k⟩ := pk
      rw [loopBody_active h f fuel i st hS port k hu]
      obtain ⟨j, _, _, hj3, hj4, _⟩ := UnusedPort_spec h fuel _ _ _ hu
      cases hr : (NewUdpChannel h { st with rndCalls := k } port
          (f.Server ++ ":" ++ toString (wrapInt64 (f.Port + i)))).1 with
      | some e =>
        obtain ⟨hf1, hf2, hf3⟩ := NewUdpChannel_fail h _ _ _ e hr
        refine ⟨by simp, ?_⟩
        intro o ho
        simp only [Option.some.injEq] at ho
        exact ⟨hf1, hf2, hf3, Or.inr ⟨e, ho.symm⟩⟩
      | none =>
        obtain ⟨c, hc1, hc2, hc3, hc4, hc5, _, hc7, hc8, hc9, hc10⟩ :=
          NewUdpChannel_ok h _ _ _ hr
        refine ⟨fun _ => ⟨?_, by simp [hc8], c, hc8, hc10⟩, by simp⟩
        refine loopInv_append h f st _ c hinv ?_ hc8 hc9 hc10
        refine ⟨hc2, hc3, hc4, by rw [hc1]; exact hc5, fun he => absurd he hS, ?_⟩
        intro _
        refine ⟨⟨j, by rw [hc1]; exact hj3, by rw [hc1]; exact hj4⟩, ?_⟩
        have := hc7 (remote_string_ne_empty _ _)
        rw [hi] at this
        exact this

/-- The loop of `main`: every channel it leaves is the one its round creates, the
goroutines started are those of the channels; when the loop runs to its end it has
created one channel per round; and it makes `main` return only for a failed port search
or a failed `NewUdpChannel`. -/
lemma channelLoop_inv (h : Host) (f : Flags) (fuel : Nat) (todo : Nat) :
    ∀ (i : Int) (st : MainState), loopInv h f st → i = (st.channelList.length : Int) →
      loopInv h f (channelLoop h f fuel todo i st).1 ∧
      ((channelLoop h f fuel todo i st).2 = none →
        (channelLoop h f fuel todo i st).1.channelList.length =
          st.channelList.length + todo) ∧
      (∀ o, (channelLoop h f fuel todo i st).2 = some o →
        o = .portSearch ∨ ∃ e, o = .channelFailed e) ∧
      (channelLoop h f fuel todo i st).1.channelList.length ≤
        st.channelList.length + todo := by
  induction todo with
  | zero => intro i st hinv _; simp [channelLoop, hinv]
  | succ n ih =>
    intro i st hinv hi
    obtain ⟨hcont, hstop⟩ := loopBody_step h f fuel i st hinv hi
    unfold channelLoop
    cases hb : (loopBody h f fuel i st).2 with
    | some o =>
      obtain ⟨h1, h2, hsk, h3⟩ := hstop o hb
      refine ⟨⟨?_, ?_, ?_⟩, by simp, ?_, ?_⟩
      · intro idx c hget
        rw [h1] at hget
        exact hinv.1 idx c hget
      · rw [h1, h2]; exact hinv.2.1
      · intro c hc
        rw [h1] at hc
        exact hsk _ (hinv.2.2 c hc)
      · intro o' ho'
        simp only [Option.some.injEq] at ho'
        rw [← ho']; exact h3
      · simp only [h1]; omega
    | none =>
      obtain ⟨hinv', hlen, _⟩ := hcont hb
      obtain ⟨g1, g2, g3, g4⟩ := ih (i + 1) (loopBody h f fuel i st).1 hinv'
        (by rw [hlen, hi]; push_cast; ring)
      refine ⟨g1, ?_, g3, ?_⟩
      · intro hnone
        rw [g2 hnone, hlen]
        omega
      · show (channelLoop h f fuel n (i + 1) (loopBody h f fuel i st).1).1.channelList.length
          ≤ st.channelList.length + (n + 1)
        omega

/-- In passive role the loop runs to its end when every port it binds is free. -/
lemma channelLoop_passive_completes (h : Host) (f : Flags) (fuel : Nat)
    (hS : f.Server = "") (todo : Nat) :
    ∀ (i : Int) (st : MainState),
      (∀ j : Nat, j < todo → h.udpListen (wrapInt64 (f.Port + (i + j))) = none) →
      (channelLoop h f fuel todo i st).2 = none := by
  induction todo with
  | zero => intro i st _; simp [channelLoop]
  | succ n ih =>
    intro i st hbind
    have h0 : h.udpListen (wrapInt64 (f.Port + i)) = none := by
      simpa using hbind 0 (by omega)
    have hb : loopBody h f fuel i st =
        ((NewUdpChannel h st (wrapInt64 (f.Port + i)) "").2, none) := by
      rw [loopBody_passive h f fuel i st hS]
      simp [NewUdpChannel, h0]
    unfold channelLoop
    rw [hb]
    apply ih
    intro j hj
    have := hbind (j + 1) (by omega)
    rw [← this]
    congr 2
    push_cast
    ring

/-- In active role the loop runs to its end when every candidate port passes the TCP
check and binds, and every remote string resolves. -/
lemma channelLoop_active_completes (h : Host) (f : Flags) (fuel : Nat)
    (hS : f.Server ≠ "") (hfuel : 0 < fuel)
    (hfree : ∀ k, h.tcpListen k ((h.rnd k : Int) % 40000 + 10000) = none)
    (hbind : ∀ k, h.udpListen ((h.rnd k : Int) % 40000 + 10000) = none) (todo : Nat) :
    ∀ (i : Int) (st : MainState),
      (∀ j : Nat, j < todo →
        ∃ a, h.resolve (f.Server ++ ":" ++ toString (wrapInt64 (f.Port + (i + j)))) = .ok a) →
      (channelLoop h f fuel todo i st).2 = none := by
  induction todo with
  | zero => intro i st _; simp [channelLoop]
  | succ n ih =>
    intro i st hres
    obtain ⟨a, ha⟩ := hres 0 (by omega)
    simp only [Nat.cast_zero, add_zero] at ha
    have hu := UnusedPort_returns h st.rndCalls (hfree st.rndCalls) fuel st.rndCalls
      (le_refl _) (by omega) (fun j' h1 h2 => by omega)
    have hne := remote_string_ne_empty f.Server (wrapInt64 (f.Port + i))
    have hb : (loopBody h f fuel i st).2 = none := by
      rw [loopBody_active h f fuel i st hS _ _ hu]
      simp [NewUdpChannel, hbind st.rndCalls, ha, Except.map, hne]
    unfold channelLoop
    rw [hb]
    apply ih
    intro j hj
    obtain ⟨a', ha'⟩ := hres (j + 1) (by omega)
    refine ⟨a', ?_⟩
    rw [← ha']
    congr 5
    push_cast
    ring

/-- `main` without `-help`: what follows the loop. -/
lemma main_eq (h : Host) (f : Flags) (fuel : Nat) (hhelp : f.help = false) :
    main h f fuel =
      match (channelLoop h f fuel f.Number.toNat 0 MainState.init).2 with
      | some o => ((channelLoop h f fuel f.Number.toNat 0 MainState.init).1, o)
      | none =>
        match h.parseCIDR f.IPnet with
        | .error e =>
          ({ (channelLoop h f fuel f.Number.toNat 0 MainState.init).1 with
              log := (channelLoop h f fuel f.Number.toNat 0 MainState.init).1.log ++ [e] },
            .cidrFailed e)
        | .ok (ip, ipnet) =>
          match (opentun.OpenTun h.os "eth0" ip ipnet).2 with
          | .error e =>
            ({ (channelLoop h f fuel f.Number.toNat 0 MainState.init).1 with
                sys := (opentun.OpenTun h.os "eth0" ip ipnet).1,
                log := (channelLoop h f fuel f.Number.toNat 0 MainState.init).1.log ++ [e] },
              .tunFailed e)
          | .ok _ =>
            ({ (channelLoop h f fuel f.Number.toNat 0 MainState.init).1 with
                sys := (opentun.OpenTun h.os "eth0" ip ipnet).1,
                started := (channelLoop h f fuel f.Number.toNat 0 MainState.init).1.started
                  ++ [.TunRecv, .TunSend],
                log := (channelLoop h f fuel f.Number.toNat 0 MainState.init).1.log
                  ++ ["tun init success"] }, .running) := by
  simp [main, hhelp]

/-- The channels `main` leaves are those its loop created. -/
lemma main_channelList (h : Host) (f : Flags) (fuel : Nat) (hhelp : f.help = false) :
    (main h f fuel).1.channelList =
      (channelLoop h f fuel f.Number.toNat 0 MainState.init).1.channelList := by
  rw [main_eq h f fuel hhelp]
  cases (channelLoop h f fuel f.Number.toNat 0 MainState.init).2 with
  | some o => rfl
  | none =>
    cases h.parseCIDR f.IPnet with
    | error e => rfl
    | ok pr =>
      obtain ⟨ip, ipnet⟩ := pr
      cases hO : (opentun.OpenTun h.os "eth0" ip ipnet).2 <;> simp [hO]

/-- The state at the start of `main` satisfies `loopInv`. -/
lemma loopInv_init (h : Host) (f : Flags) : loopInv h f MainState.init := by
  simp [loopInv, MainState.init]

/-- Every channel `main` leaves is the one its round creates, and there are at most
`Number` of them. -/
lemma main_channels (h : Host) (f : Flags) (fuel : Nat) (hhelp : f.help = false) :
    (∀ idx c, (main h f fuel).1.channelList[idx]? = some c → channelOf h f idx c) ∧
    (main h f fuel).1.channelList.length ≤ f.Number.toNat := by
  rw [main_channelList h f fuel hhelp]
  obtain ⟨g1, _, _, g4⟩ := channelLoop_inv h f fuel f.Number.toNat 0 MainState.init
    (loopInv_init h f) (by simp [MainState.init])
  exact ⟨g1.1, by simpa [MainState.init] using g4⟩

/-- An index with an entry is below the length. -/
lemma lt_length_of_getElem? {α : Type} (l : List α) (idx : Nat) (a : α)
    (hget : l[idx]? = some a) : idx < l.length := by
  by_contra hge
  rw [List.getElem?_eq_none (Nat.le_of_not_lt hge)] at hget
  cases hget

/-- The number of channels after a loop that ran to its end. -/
lemma main_length (h : Host) (f : Flags) (fuel : Nat) (hhelp : f.help = false)
    (hdone : (channelLoop h f fuel f.Number.toNat 0 MainState.init).2 = none) :
    (main h f fuel).1.channelList.length = f.Number.toNat := by
  rw [main_channelList h f fuel hhelp]
  obtain ⟨_, g2, _, _⟩ := channelLoop_inv h f fuel f.Number.toNat 0 MainState.init
    (loopInv_init h f) (by simp [MainState.init])
  simpa [MainState.init] using g2 hdone

/-- The sockets and goroutines `main` leaves: the sockets are those its loop opened,
and every goroutine its loop started is still started. -/
lemma main_sockets (h : Host) (f : Flags) (fuel : Nat) (hhelp : f.help = false) :
    (main h f fuel).1.sockets =
      (channelLoop h f fuel f.Number.toNat 0 MainState.init).1.sockets ∧
    ∀ t ∈ (channelLoop h f fuel f.Number.toNat 0 MainState.init).1.started,
      t ∈ (main h f fuel).1.started := by
  rw [main_eq h f fuel hhelp]
  cases (channelLoop h f fuel f.Number.toNat 0 MainState.init).2 with
  | some o => exact ⟨rfl, fun t ht => ht⟩
  | none =>
    cases h.parseCIDR f.IPnet with
    | error e => exact ⟨rfl, fun t ht => ht⟩
    | ok pr =>
      obtain ⟨ip, ipnet⟩ := pr
      cases hO : (opentun.OpenTun h.os "eth0" ip ipnet).2 with
      | error e => simp only [hO]; exact ⟨trivial, fun t ht => ht⟩
      | ok t =>
        simp only [hO]
        exact ⟨trivial, fun t ht => List.mem_append_left _ ht⟩

/-- When the loop runs to its end, the sockets opened are those of the channels, in
order. -/
lemma channelLoop_sockets (h : Host) (f : Flags) (fuel : Nat) (todo : Nat) :
    ∀ (i : Int) (st : MainState), loopInv h f st → i = (st.channelList.length : Int) →
      st.sockets = st.channelList.map (socketOf h) →
      (channelLoop h f fuel todo i st).2 = none →
      (channelLoop h f fuel todo i st).1.sockets =
        (channelLoop h f fuel todo i st).1.channelList.map (socketOf h) := by
  induction todo with
  | zero => intro i st _ _ hs _; simpa [channelLoop] using hs
  | succ n ih =>
    intro i st hinv hi hs hdone
    obtain ⟨hcont, hstop⟩ := loopBody_step h f fuel i st hinv hi
    unfold channelLoop at hdone ⊢
    cases hb : (loopBody h f fuel i st).2 with
    | some o => simp [hb] at hdone
    | none =>
      simp only [hb] at hdone ⊢
      obtain ⟨hinv', hlen, c, hc1, hc2⟩ := hcont hb
      exact ih (i + 1) (loopBody h f fuel i st).1 hinv'
        (by rw [hlen, hi]; push_cast; ring) (by rw [hc1, hc2, hs]; simp) hdone

/-- Every channel `main` leaves has had its socket opened and its three goroutines
started. -/
lemma main_channel_resources (h : Host) (f : Flags) (fuel : Nat) (hhelp : f.help = false)
    (idx : Nat) (c : UdpChannel) (hget : (main h f fuel).1.channelList[idx]? = some c) :
    socketOf h c ∈ (main h f fuel).1.sockets ∧
    ∀ t ∈ channelTasks c, t ∈ (main h f fuel).1.started := by
  obtain ⟨g1, _, _, _⟩ := channelLoop_inv h f fuel f.Number.toNat 0 MainState.init
    (loopInv_init h f) (by simp [MainState.init])
  obtain ⟨hs1, hs2⟩ := main_sockets h f fuel hhelp
  rw [main_channelList h f fuel hhelp] at hget
  have hmem : c ∈ (channelLoop h f fuel f.Number.toNat 0 MainState.init).1.channelList :=
    List.getElem?_mem hget
  refine ⟨by rw [hs1]; exact g1.2.2 c hmem, ?_⟩
  intro t ht
  apply hs2
  rw [g1.2.1]
  exact List.mem_flatMap.mpr ⟨c, hmem, ht⟩

/-- C7, as stated, fails: with base port 0 in passive role the channel is created
with port 0, but its socket is bound to the port the kernel chose, not to base port plus
index. -/
theorem main_channel_endpoints_counterexample :
    zeroPortFlags.Server = "" ∧ zeroPortFlags.Port = 0 ∧ zeroPortFlags.Number = 1 ∧
    (hostWithMTU 1500).udpListen 0 = none ∧ (hostWithMTU 1500).udpBound 0 = 45678 ∧
    (main (hostWithMTU 1500) zeroPortFlags 1).1.channelList = [⟨0, 0, none, 0, 0⟩] ∧
    (main (hostWithMTU 1500) zeroPortFlags 1).1.sockets = [⟨0, 45678⟩] ∧
    (45678 : Int) ≠ 0 + 0 := by
  decide

/-- C7, amended: with base port `B ≥ 1` and bond width `N` (Go integers whose sum does
not overflow) on a host that binds a socket to the port asked for, in passive role every
channel `main` creates in round `idx` has the remote unset, its socket bound to local
port `B + idx` and its three goroutines started, and when the ports `B, ..., B+N-1` can
be bound the channels are exactly those of the rounds `0, ..., N-1` and the sockets
opened are exactly those bound to `B, B+1, ..., B+N-1`; in active role with server `H`
the channel of round `idx` has as remote the resolved address of `H:(B+idx)`, its socket
opened and its goroutines started, and all `N` channels are created when every candidate
port is free and every remote resolves. -/
theorem main_channel_endpoints (h : Host) (fuel : Nat) (ipnet : String) (B N : Int)
    (H : String) (hB : 1 ≤ B) (hBN : B + N ≤ 2 ^ 63) (hH : H ≠ "")
    (hos : bindsRequested h) :
    (∀ (idx : Nat) (c : UdpChannel),
      (main h ⟨false, ipnet, B, N, ""⟩ fuel).1.channelList[idx]? = some c →
      c.port = B + (idx : Int) ∧ c.remote = none ∧ (idx : Int) < N ∧ c.conn = idx ∧
      (⟨idx, B + (idx : Int)⟩ : Socket) ∈ (main h ⟨false, ipnet, B, N, ""⟩ fuel).1.sockets ∧
      (∀ t ∈ channelTasks c, t ∈ (main h ⟨false, ipnet, B, N, ""⟩ fuel).1.started)) ∧
    ((∀ idx : Nat, (idx : Int) < N → h.udpListen (B + idx) = none) →
      (main h ⟨false, ipnet, B, N, ""⟩ fuel).1.channelList =
        (List.range N.toNat).map
          (fun (idx : Nat) => (⟨B + (idx : Int), idx, none, 0, 0⟩ : UdpChannel)) ∧
      (main h ⟨false, ipnet, B, N, ""⟩ fuel).1.sockets =
        (List.range N.toNat).map (fun (idx : Nat) => (⟨idx, B + (idx : Int)⟩ : Socket))) ∧
    (∀ (idx : Nat) (c : UdpChannel),
      (main h ⟨false, ipnet, B, N, H⟩ fuel).1.channelList[idx]? = some c →
      (∃ a, h.resolve (H ++ ":" ++ toString (B + (idx : Int))) = .ok a ∧ c.remote = some a) ∧
      c.conn = idx ∧
      socketOf h c ∈ (main h ⟨false, ipnet, B, N, H⟩ fuel).1.sockets ∧
      (∀ t ∈ channelTasks c, t ∈ (main h ⟨false, ipnet, B, N, H⟩ fuel).1.started)) ∧
    (0 < fuel → (∀ k, h.tcpListen k ((h.rnd k : Int) % 40000 + 10000) = none) →
      (∀ k, h.udpListen ((h.rnd k : Int) % 40000 + 10000) = none) →
      (∀ idx : Nat, (idx : Int) < N →
        ∃ a, h.resolve (H ++ ":" ++ toString (B + (idx : Int))) = .ok a) →
      (main h ⟨false, ipnet, B, N, H⟩ fuel).1.channelList.length = N.toNat) := by
  have hwrap : ∀ idx : Nat, (idx : Int) < N → wrapInt64 (B + idx) = B + idx :=
    fun idx hidx => wrapInt64_of_range _ (by omega) (by omega)
  have hpas : ∀ (idx : Nat) (c : UdpChannel),
      (main h ⟨false, ipnet, B, N, ""⟩ fuel).1.channelList[idx]? = some c →
      c = ⟨B + (idx : Int), idx, none, 0, 0⟩ ∧ (idx : Int) < N := by
    intro idx c hget
    obtain ⟨hall, hlen⟩ := main_channels h ⟨false, ipnet, B, N, ""⟩ fuel rfl
    have hlt := lt_length_of_getElem? _ idx c hget
    have hidx : (idx : Int) < N := by simp only at hlen; omega
    obtain ⟨h1, h2, h3, _, hp, _⟩ := hall idx c hget
    obtain ⟨hp1, hp2⟩ := hp rfl
    simp only at hp1
    rw [hwrap idx hidx] at hp1
    refine ⟨?_, hidx⟩
    cases c
    simp only at h1 h2 h3 hp1 hp2
    simp [h1, h2, h3, hp1, hp2]
  refine ⟨?_, ?_, ?_, ?_⟩
  · intro idx c hget
    obtain ⟨hc, hidx⟩ := hpas idx c hget
    obtain ⟨hs, ht⟩ := main_channel_resources h ⟨false, ipnet, B, N, ""⟩ fuel rfl idx c hget
    refine ⟨by rw [hc], by rw [hc], hidx, by rw [hc], ?_, ht⟩
    have hb : h.udpBound (B + (idx : Int)) = B + (idx : Int) := hos _ (by omega)
    rw [hc] at hs
    simpa [socketOf, hb] using hs
  · intro hbind
    have hdone : (channelLoop h ⟨false, ipnet, B, N, ""⟩ fuel N.toNat 0 MainState.init).2
        = none := by
      apply channelLoop_passive_completes h _ fuel rfl
      intro j hj
      have hjN : (j : Int) < N := by omega
      simp only [zero_add]
      rw [hwrap j hjN]
      exact hbind j hjN
    have hlen := main_length h ⟨false, ipnet, B, N, ""⟩ fuel rfl hdone
    have hlist : (main h ⟨false, ipnet, B, N, ""⟩ fuel).1.channelList =
        (List.range N.toNat).map
          (fun (idx : Nat) => (⟨B + (idx : Int), idx, none, 0, 0⟩ : UdpChannel)) := by
      apply List.ext_getElem
      · simpa using hlen
      · intro n h1 h2
        simp only [List.getElem_map, List.getElem_range]
        exact (hpas n _ (List.getElem?_eq_getElem h1)).1
    refine ⟨hlist, ?_⟩
    have hsock := channelLoop_sockets h ⟨false, ipnet, B, N, ""⟩ fuel N.toNat 0
      MainState.init (loopInv_init h _) (by simp [MainState.init])
      (by simp [MainState.init]) hdone
    rw [(main_sockets h ⟨false, ipnet, B, N, ""⟩ fuel rfl).1, hsock,
      ← main_channelList h ⟨false, ipnet, B, N, ""⟩ fuel rfl, hlist, List.map_map]
    apply List.map_congr_left
    intro idx hidx
    have hb : h.udpBound (B + (idx : Int)) = B + (idx : Int) := hos _ (by omega)
    simp [socketOf, hb]
  · intro idx c hget
    obtain ⟨hall, hlen⟩ := main_channels h ⟨false, ipnet, B, N, H⟩ fuel rfl
    have hlt := lt_length_of_getElem? _ idx c hget
    have hidx : (idx : Int) < N := by simp only at hlen; omega
    obtain ⟨hconn, _, _, _, _, hp⟩ := hall idx c hget
    obtain ⟨_, a, ha1, ha2⟩ := hp hH
    simp only at ha1
    rw [hwrap idx hidx] at ha1
    obtain ⟨hs, ht⟩ := main_channel_resources h ⟨false, ipnet, B, N, H⟩ fuel rfl idx c hget
    exact ⟨⟨a, ha1, ha2⟩, hconn, hs, ht⟩
  · intro hfuel hfree hbind hres
    apply main_length h ⟨false, ipnet, B, N, H⟩ fuel rfl
    apply channelLoop_active_completes h _ fuel hH hfuel hfree hbind
    intro j hj
    change j < N.toNat at hj
    have hjN : (j : Int) < N := by omega
    simp only [zero_add]
    rw [hwrap j hjN]
    exact hres j hjN

/-- The sample host binds a socket to the port asked for. -/
lemma hostWithMTU_bindsRequested (m : Int) : bindsRequested (hostWithMTU m) := by
  intro p hp
  simp [hostWithMTU, hp]

/-- C7 amended, at an instance: base port 9000, three channels, peer `10.0.0.2`. -/
theorem main_channel_endpoints_witness :
    ((1 : Int) ≤ 9000) ∧ ((9000 : Int) + 3 ≤ 2 ^ 63) ∧ ("10.0.0.2" ≠ "") ∧
    bindsRequested (hostWithMTU 1500) ∧
    (main (hostWithMTU 1500) ⟨false, "172.168.1.1/16", 9000, 3, ""⟩ 1).1.sockets =
      (List.range (3 : Int).toNat).map
        (fun (idx : Nat) => (⟨idx, (9000 : Int) + (idx : Int)⟩ : Socket)) ∧
    (main (hostWithMTU 1500) ⟨false, "172.168.1.1/16", 9000, 3, "10.0.0.2"⟩
        1).1.channelList.length = (3 : Int).toNat :=
  ⟨by norm_num, by norm_num, by decide, hostWithMTU_bindsRequested 1500,
    ((main_channel_endpoints (hostWithMTU 1500) 1 "172.168.1.1/16" 9000 3 "10.0.0.2"
      (by norm_num) (by norm_num) (by decide) (hostWithMTU_bindsRequested 1500)).2.1
      (fun _ _ => rfl)).2,
    (main_channel_endpoints (hostWithMTU 1500) 1 "172.168.1.1/16" 9000 3 "10.0.0.2"
      (by norm_num) (by norm_num) (by decide) (hostWithMTU_bindsRequested 1500)).2.2.2
      (by norm_num) (fun _ => rfl) (fun _ => rfl) (by
        intro idx hidx
        have h3 : idx = 0 ∨ idx = 1 ∨ idx = 2 := by omega
        rcases h3 with h3 | h3 | h3 <;> subst h3
        · exact ⟨⟨"10.0.0.2", 9000⟩, rfl⟩
        · exact ⟨⟨"10.0.0.2", 9001⟩, rfl⟩
        · exact ⟨⟨"10.0.0.2", 9002⟩, rfl⟩)⟩

/-- C8, as stated, fails: in passive role the channels bind base port plus index,
outside the range of the unused-port policy, and in active role the local ports are the
ones drawn by `UnusedPort`, not base port plus index. -/
theorem main_local_ports_counterexample :
    passiveFlags.Server = "" ∧ passiveFlags.Port = 9000 ∧
    (main (hostWithMTU 1500) passiveFlags 1).1.channelList.map UdpChannel.port =
      [9000, 9001, 9002] ∧
    ¬ ((10000 : Int) ≤ 9000) ∧
    activeFlags.Server ≠ "" ∧ activeFlags.Port = 9000 ∧
    (main (hostWithMTU 1500) activeFlags 1).1.channelList.map UdpChannel.port =
      [10017, 10018, 10019] ∧
    (10017 : Int) ≠ 9000 + 0 := by
  decide

/-- C8, amended: in passive role the channel of round `idx` binds the local port base
port plus `idx`; in active role it binds a port returned by `UnusedPort`, which lies in
`10000 ≤ port < 50000`, is a candidate drawn from the random generator and passed the
check of `IsUsedPort`, while base port plus `idx` is the port of its remote;
`UnusedPort` returns only such a port, having refused every earlier candidate, and it
returns the first candidate that passes the check. -/
theorem main_local_ports (h : Host) (fuel : Nat) (ipnet : String) (B N : Int) (H : String)
    (hB : -2 ^ 63 ≤ B) (hBN : B + N ≤ 2 ^ 63) (hH : H ≠ "") :
    (∀ (idx : Nat) (c : UdpChannel),
      (main h ⟨false, ipnet, B, N, ""⟩ fuel).1.channelList[idx]? = some c →
      c.port = B + (idx : Int)) ∧
    (∀ (idx : Nat) (c : UdpChannel),
      (main h ⟨false, ipnet, B, N, H⟩ fuel).1.channelList[idx]? = some c →
      10000 ≤ c.port ∧ c.port < 50000 ∧
      (∃ k, c.port = (h.rnd k : Int) % (50000 - 10000) + 10000 ∧
        IsUsedPort h k c.port = none) ∧
      ∃ a, h.resolve (H ++ ":" ++ toString (B + (idx : Int))) = .ok a ∧ c.remote = some a) ∧
    (∀ (k : Nat) (port : Int) (k' : Nat), UnusedPort h fuel k = some (port, k') →
      10000 ≤ port ∧ port < 50000 ∧
      ∃ j, k ≤ j ∧ k' = j + 1 ∧ port = (h.rnd j : Int) % (50000 - 10000) + 10000 ∧
        IsUsedPort h j port = none ∧
        ∀ j', k ≤ j' → j' < j →
          IsUsedPort h j' ((h.rnd j' : Int) % (50000 - 10000) + 10000) ≠ none) ∧
    (∀ (k j : Nat), k ≤ j → j - k < fuel →
      IsUsedPort h j ((h.rnd j : Int) % (50000 - 10000) + 10000) = none →
      (∀ j', k ≤ j' → j' < j →
        IsUsedPort h j' ((h.rnd j' : Int) % (50000 - 10000) + 10000) ≠ none) →
      UnusedPort h fuel k = some ((h.rnd j : Int) % (50000 - 10000) + 10000, j + 1)) := by
  have h4 : (50000 : Int) - 10000 = 40000 := by norm_num
  have hwrap : ∀ idx : Nat, (idx : Int) < N → wrapInt64 (B + idx) = B + idx :=
    fun idx hidx => wrapInt64_of_range _ (by omega) (by omega)
  simp only [h4, IsUsedPort]
  refine ⟨?_, ?_, ?_, ?_⟩
  · intro idx c hget
    obtain ⟨hall, hlen⟩ := main_channels h ⟨false, ipnet, B, N, ""⟩ fuel rfl
    have hlt := lt_length_of_getElem? _ idx c hget
    have hidx : (idx : Int) < N := by simp only at hlen; omega
    obtain ⟨_, _, _, _, hp, _⟩ := hall idx c hget
    rw [(hp rfl).1]
    exact hwrap idx hidx
  · intro idx c hget
    obtain ⟨hall, hlen⟩ := main_channels h ⟨false, ipnet, B, N, H⟩ fuel rfl
    have hlt := lt_length_of_getElem? _ idx c hget
    have hidx : (idx : Int) < N := by simp only at hlen; omega
    obtain ⟨_, _, _, _, _, hp⟩ := hall idx c hget
    obtain ⟨⟨k, hk1, hk2⟩, a, ha1, ha2⟩ := hp hH
    simp only at ha1
    rw [hwrap idx hidx] at ha1
    refine ⟨by omega, by omega, ⟨k, hk1, hk2⟩, a, ha1, ha2⟩
  · intro k port k' hret
    obtain ⟨j, hj1, hj2, hj3, hj4, hj5⟩ := UnusedPort_spec h fuel k port k' hret
    exact ⟨by omega, by omega, j, hj1, hj2, hj3, hj4, hj5⟩
  · intro k j hkj hfuel hfree hbusy
    exact UnusedPort_returns h j hfree fuel k hkj hfuel hbusy

/-- C8 amended, at an instance: base port 9000, peer `10.0.0.2`; the first channel of
the passive endpoint binds port 9000. -/
theorem main_local_ports_witness :
    (-2 ^ 63 ≤ (9000 : Int)) ∧ ((9000 : Int) + 3 ≤ 2 ^ 63) ∧ ("10.0.0.2" ≠ "") ∧
    (main (hostWithMTU 1500) ⟨false, "172.168.1.1/16", 9000, 3, ""⟩ 1).1.channelList[0]? =
      some ⟨9000, 0, none, 0, 0⟩ ∧
    (⟨9000, 0, none, 0, 0⟩ : UdpChannel).port = 9000 + ((0 : Nat) : Int) :=
  ⟨by norm_num, by norm_num, by decide, by decide,
    (main_local_ports (hostWithMTU 1500) 1 "172.168.1.1/16" 9000 3 "10.0.0.2"
      (by norm_num) (by norm_num) (by decide)).1 0 ⟨9000, 0, none, 0, 0⟩ (by decide)⟩

/-- C9, as stated, fails: the physical interface has MTU 20, `OpenTun` fails and
`main` returns, yet the three channels have been created before and their nine
goroutines started. -/
theorem main_tun_failure_counterexample :
    (hostWithMTU 20).os.ifaceLookup "eth0" = .ok ⟨20⟩ ∧
    (main (hostWithMTU 20) passiveFlags 1).2 =
      .tunFailed "interface eth0 mtu is too small" ∧
    (main (hostWithMTU 20) passiveFlags 1).1.channelList =
      [⟨9000, 0, none, 0, 0⟩, ⟨9001, 1, none, 0, 0⟩, ⟨9002, 2, none, 0, 0⟩] ∧
    (main (hostWithMTU 20) passiveFlags 1).1.started =
      [.UdpRecv 0, .UdpSend 0, .Display 0, .UdpRecv 1, .UdpSend 1, .Display 1,
        .UdpRecv 2, .UdpSend 2, .Display 2] := by
  refine ⟨rfl, by decide, by decide, by decide⟩

/-- C9, amended: when `main` ends because `net.ParseCIDR` or `opentun.OpenTun`
failed, the goroutines `TunRecv` and `TunSend` have not been started, while all
`Number` channels have been created before and the three goroutines of each have been
started; and `main` does end so when the loop ran to its end, the CIDR parses and the
physical interface has an MTU below 28. -/
theorem main_tun_failure (h : Host) (f : Flags) (fuel : Nat) :
    (∀ e, (main h f fuel).2 = .tunFailed e ∨ (main h f fuel).2 = .cidrFailed e →
      Task.TunRecv ∉ (main h f fuel).1.started ∧
      Task.TunSend ∉ (main h f fuel).1.started ∧
      (main h f fuel).1.channelList.length = f.Number.toNat ∧
      (main h f fuel).1.started = (main h f fuel).1.channelList.flatMap channelTasks ∧
      (main h f fuel).1.started.length = 3 * f.Number.toNat) ∧
    (f.help = false →
      (channelLoop h f fuel f.Number.toNat 0 MainState.init).2 = none →
      ∀ ip ipnet m, h.parseCIDR f.IPnet = .ok (ip, ipnet) →
        h.os.ifaceLookup "eth0" = .ok ⟨m⟩ → m < 28 →
        ∃ e, (main h f fuel).2 = .tunFailed e) := by
  constructor
  · intro e hfail
    by_cases hhelp : f.help = true
    · have : (main h f fuel).2 = .usage := by simp [main, hhelp]
      rw [this] at hfail
      rcases hfail with hfail | hfail <;> cases hfail
    · have hhelp' : f.help = false := by simpa using hhelp
      obtain ⟨g1, g2, g3, _⟩ := channelLoop_inv h f fuel f.Number.toNat 0 MainState.init
        (loopInv_init h f) (by simp [MainState.init])
      have key : (channelLoop h f fuel f.Number.toNat 0 MainState.init).2 = none ∧
          (main h f fuel).1.started =
            (channelLoop h f fuel f.Number.toNat 0 MainState.init).1.started := by
        rw [main_eq h f fuel hhelp'] at hfail ⊢
        cases hl : (channelLoop h f fuel f.Number.toNat 0 MainState.init).2 with
        | some o =>
          simp only [hl] at hfail
          rcases g3 o hl with ho | ⟨e', ho⟩ <;> subst ho <;>
            rcases hfail with hfail | hfail <;> cases hfail
        | none =>
          refine ⟨rfl, ?_⟩
          simp only [hl] at hfail ⊢
          cases hc : h.parseCIDR f.IPnet with
          | error e' => rfl
          | ok pr =>
            obtain ⟨ip, ipnet⟩ := pr
            simp only [hc] at hfail ⊢
            cases hO : (opentun.OpenTun h.os "eth0" ip ipnet).2 with
            | error e' => simp [hO]
            | ok t =>
              simp only [hO] at hfail
              rcases hfail with hfail | hfail <;> cases hfail
      obtain ⟨hdone, hst⟩ := key
      have hlen := main_length h f fuel hhelp' hdone
      have hst' : (main h f fuel).1.started =
          (main h f fuel).1.channelList.flatMap channelTasks := by
        rw [hst, main_channelList h f fuel hhelp', g1.2.1]
      have hcount : ∀ l : List UdpChannel, (l.flatMap channelTasks).length = 3 * l.length := by
        intro l
        induction l with
        | nil => rfl
        | cons c l ih => simp [List.flatMap_cons, channelTasks, ih]; omega
      refine ⟨?_, ?_, hlen, hst', by rw [hst', hcount, hlen]⟩
      · rw [hst']; simp [List.mem_flatMap, channelTasks]
      · rw [hst']; simp [List.mem_flatMap, channelTasks]
  · intro hhelp hdone ip ipnet m hc hm hlt
    have hO := (OpenTun_small h.os "eth0" ip ipnet 0 m hm hlt).1
    refine ⟨if m = 0 then "failed to determine MTU for " ++ "eth0" ++ " interface"
      else "interface " ++ "eth0" ++ " mtu is too small", ?_⟩
    rw [main_eq h f fuel hhelp]
    simp only [hdone, hc, hO]

/-- C9 amended, at an instance: the physical interface has MTU 20. -/
theorem main_tun_failure_witness :
    ((main (hostWithMTU 20) passiveFlags 1).2 = .tunFailed "interface eth0 mtu is too small" ∨
      (main (hostWithMTU 20) passiveFlags 1).2 =
        .cidrFailed "interface eth0 mtu is too small") ∧
    Task.TunRecv ∉ (main (hostWithMTU 20) passiveFlags 1).1.started ∧
    (main (hostWithMTU 20) passiveFlags 1).1.channelList.length = passiveFlags.Number.toNat :=
  ⟨Or.inl (by decide),
    ((main_tun_failure (hostWithMTU 20) passiveFlags 1).1 "interface eth0 mtu is too small"
      (Or.inl (by decide))).1,
    ((main_tun_failure (hostWithMTU 20) passiveFlags 1).1 "interface eth0 mtu is too small"
      (Or.inl (by decide))).2.2.1⟩

/-- C4, at an instance: a physical interface with MTU 1500 and an operating system
that accepts every call. -/
theorem OpenTun_mtu_witness :
    (osWithMTU 1500).ifaceLookup "eth0" = .ok ⟨1500⟩ ∧
    (opentun.OpenTun (osWithMTU 1500) "eth0" "172.168.1.1" "172.168.0.0/16").2 =
      .ok ⟨0, 0, "opentun0"⟩ ∧
    (∀ name v, opentun.SysCall.linkSetMTU name v ∈
        (opentun.OpenTun (osWithMTU 1500) "eth0" "172.168.1.1" "172.168.0.0/16").1 →
      v = 1500 - 28) ∧
    (∃ fds, (multique.OpenTun (osWithMTU 1500) "eth0" "172.168.1.1" "172.168.0.0/16" 2).2 =
        .ok ⟨fds, 1500 - 28, "opentun0"⟩ ∧ fds.length = (2 : Int).toNat) :=
  ⟨rfl,
    (OpenTun_mtu (osWithMTU 1500) "eth0" "172.168.1.1" "172.168.0.0/16" 2 1500 rfl).2.2.2.2.2.1
      (by norm_num) "opentun0" rfl rfl rfl rfl rfl rfl (fun e he => by cases he),
    (OpenTun_mtu (osWithMTU 1500) "eth0" "172.168.1.1" "172.168.0.0/16" 2 1500 rfl).2.1,
    (OpenTun_mtu (osWithMTU 1500) "eth0" "172.168.1.1" "172.168.0.0/16" 2 1500 rfl).2.2.2.2.2.2
      (by norm_num) "opentun0" (by norm_num) (fun _ => rfl) (fun _ => rfl) rfl rfl rfl rfl
      (fun e he => by cases he)⟩

end Main

end GoTunnel
